import Mathlib

/-!
Verification of the IGL OpenGL framebuffer subsystem and texture byte-layout
helpers, shallowly embedded from `src/igl/opengl/Framebuffer.cpp` and
`src/igl/Texture.h`.

Modelling conventions:
* `size_t` / `GLuint` / `GLenum` values are `Nat`.
* The mutable OpenGL context is split into an explicit binding state
  (`GLState`) plus a trace of issued calls (`GLCall`), threaded through every
  operation as a `GLCtx`. Soft assertion failures (`IGL_ASSERT_MSG`,
  `IGL_ASSERT_NOT_REACHED`) are recorded in the trace as
  `GLCall.assertionFailed`; in the C++ they log/abort in debug builds and the
  code continues, which the trace captures faithfully.
* Backend answers (framebuffer completeness status per framebuffer object,
  `getLastError`, device features) are inputs, packaged in `Env`.
* `std::unordered_map<size_t, AttachmentDesc>` is modelled as an association
  list of `(index, AttachmentDesc)` pairs (the entries of the map, in
  iteration order).
* The C++ field `initialized_` is named `inited` here and
  `CustomFramebuffer::initialize` is named `cfbInit`.
* Reading `renderPass.colorAttachments[i]` past the end of the vector is
  undefined behaviour in C++; it is modelled as reading a default-constructed
  attachment descriptor (`List.getD`).
-/

/-! ## OpenGL constants (values from the GL headers) -/

def GL_FRAMEBUFFER : Nat := 0x8D40
def GL_READ_FRAMEBUFFER : Nat := 0x8CA8
def GL_DRAW_FRAMEBUFFER : Nat := 0x8CA9
def GL_RENDERBUFFER : Nat := 0x8D41
def GL_COLOR_ATTACHMENT0 : Nat := 0x8CE0
def GL_DEPTH_ATTACHMENT : Nat := 0x8D00
def GL_STENCIL_ATTACHMENT : Nat := 0x8D20
def GL_COLOR_BUFFER_BIT : Nat := 0x4000
def GL_DEPTH_BUFFER_BIT : Nat := 0x100
def GL_STENCIL_BUFFER_BIT : Nat := 0x400
def GL_FRAMEBUFFER_COMPLETE : Nat := 0x8CD5
def GL_FRAMEBUFFER_INCOMPLETE_ATTACHMENT : Nat := 0x8CD6
def GL_FRAMEBUFFER_INCOMPLETE_MISSING_ATTACHMENT : Nat := 0x8CD7
def GL_FRAMEBUFFER_INCOMPLETE_DIMENSIONS : Nat := 0x8CD9
def GL_FRAMEBUFFER_UNSUPPORTED : Nat := 0x8CDD
def GL_STENCIL_TEST : Nat := 0x0B90
def GL_FRAMEBUFFER_SRGB : Nat := 0x8DB9
def GL_PACK_ALIGNMENT : Nat := 0x0D05
def GL_RGBA : Nat := 0x1908
def GL_RGBA_INTEGER : Nat := 0x8D99
def GL_UNSIGNED_BYTE : Nat := 0x1401
def GL_UNSIGNED_INT : Nat := 0x1405
def GL_RENDERBUFFER_BINDING : Nat := 0x8CA7
def GL_FRAMEBUFFER_BINDING : Nat := 0x8CA6
def GL_READ_FRAMEBUFFER_BINDING : Nat := 0x8CAA
def GL_DRAW_FRAMEBUFFER_BINDING : Nat := 0x8CA6

/-! ## igl::Result (igl/Common.h) -/

inductive ResultCode where
  | Ok
  | ArgumentOutOfRange
  | ArgumentInvalid
  | ArgumentNull
  | InvalidOperation
  | Unsupported
  | Unimplemented
  | RuntimeError
deriving DecidableEq, Repr

structure Result where
  code : ResultCode := ResultCode.Ok
  message : String := ""
deriving DecidableEq, Repr

def Result.isOk (r : Result) : Bool := r.code = ResultCode.Ok

def Result.ok : Result := {}

/-! ## Texture formats and layout properties (igl/Texture.h, igl/TextureFormat.h) -/

inductive TextureFormat where
  | Invalid
  | RGBA_UNorm8
  | RGBA_UInt32
  | BGRA_UNorm8
  | Z_UNorm24
  | S8_UInt_Z24_UNorm
deriving DecidableEq, Repr

/-- Flag bits from `TextureFormatProperties::Flags` in `igl/Texture.h`. -/
def TFPFlags.Depth : Nat := 1
def TFPFlags.Stencil : Nat := 2
def TFPFlags.Compressed : Nat := 4
def TFPFlags.sRGB : Nat := 8
def TFPFlags.Integer : Nat := 16

/-- Layout properties of a texture format, from `struct TextureFormatProperties`
in `igl/Texture.h` (the `name` string is dropped; it carries no layout
information). -/
structure TextureFormatProperties where
  format : TextureFormat := TextureFormat.Invalid
  componentsPerPixel : Nat := 1
  bytesPerBlock : Nat := 1
  blockWidth : Nat := 1
  blockHeight : Nat := 1
  blockDepth : Nat := 1
  minBlocksX : Nat := 1
  minBlocksY : Nat := 1
  minBlocksZ : Nat := 1
  flags : Nat := 0
deriving DecidableEq, Repr

/-- Models `TextureFormatProperties::isSRGB` from `igl/Texture.h`:
`(flags & Flags::sRGB) != 0`. -/
def TextureFormatProperties.isSRGB (p : TextureFormatProperties) : Bool :=
  p.flags &&& TFPFlags.sRGB ≠ 0

/-- Modelled from the spec: the body of `TextureFormatProperties::getBytesPerRow`
lives in `src/igl/Texture.cpp`, which is not part of the excerpt (only the
declaration in `igl/Texture.h` is). Spec section 4.2:
"`getBytesPerRow(width_or_range)`: `ceil(width / blockWidth) * bytesPerBlock`,
clamped to at least `minBlocksX * bytesPerBlock`." Natural-number ceiling
division `(w + b - 1) / b` stands for `ceil(w / b)`. -/
def TextureFormatProperties.getBytesPerRow (p : TextureFormatProperties)
    (texWidth : Nat) : Nat :=
  max ((texWidth + p.blockWidth - 1) / p.blockWidth) p.minBlocksX * p.bytesPerBlock

/-- Descriptor of a texture sub-region, from `struct TextureRangeDesc` in
`igl/Texture.h`. -/
structure TextureRangeDesc where
  x : Nat := 0
  y : Nat := 0
  z : Nat := 0
  width : Nat := 1
  height : Nat := 1
  depth : Nat := 1
  layer : Nat := 0
  numLayers : Nat := 1
  mipLevel : Nat := 0
  numMipLevels : Nat := 1
  face : Nat := 0
  numFaces : Nat := 1
deriving DecidableEq, Repr

/-- Modelled from the spec: the range overload of `getBytesPerRow` uses
`range.width` as the row width (doc comment in `igl/Texture.h`). -/
def TextureFormatProperties.getBytesPerRowRange (p : TextureFormatProperties)
    (range : TextureRangeDesc) : Nat :=
  p.getBytesPerRow range.width

/-! ## Textures and attachment descriptors -/

/-- A texture as seen by the framebuffer code: an opaque GL object identifier
plus the observable predicates the framebuffer logic branches on
(`Texture::isImplicitStorage`, `ITexture::getFormat`,
`ITexture::getProperties`). -/
structure Texture where
  id : Nat
  isImplicitStorage : Bool := false
  format : TextureFormat := TextureFormat.RGBA_UNorm8
  properties : TextureFormatProperties := {}
deriving DecidableEq, Repr

/-- One attachment slot of `FramebufferDesc` (`FramebufferDesc::AttachmentDesc`):
a texture plus an optional MSAA resolve texture; `none` models a null
`shared_ptr`. -/
structure AttachmentDesc where
  texture : Option Texture := none
  resolveTexture : Option Texture := none
deriving DecidableEq, Repr

inductive FramebufferMode where
  | Mono
  | Stereo
  | Multiview
deriving DecidableEq, Repr

/-- Render-target description (`igl::FramebufferDesc`). `colorAttachments`
models the entries of the `std::unordered_map<size_t, AttachmentDesc>`. -/
structure FramebufferDesc where
  colorAttachments : List (Nat × AttachmentDesc) := []
  depthAttachment : AttachmentDesc := {}
  stencilAttachment : AttachmentDesc := {}
  mode : FramebufferMode := FramebufferMode.Mono
  debugName : String := ""
deriving DecidableEq, Repr

instance : Inhabited FramebufferDesc := ⟨{}⟩

/-- Models `std::unordered_map::find` on the color-attachment map: the first
entry with the given index, if any. -/
def findAttachment (l : List (Nat × AttachmentDesc)) (i : Nat) :
    Option AttachmentDesc :=
  (l.find? (fun ca => ca.1 = i)).map (fun ca => ca.2)

/-! ## Render pass description (igl/RenderPass.h) -/

inductive LoadAction where
  | DontCare
  | Load
  | Clear
deriving DecidableEq, Repr

inductive StoreAction where
  | DontCare
  | Store
  | MsaaResolve
deriving DecidableEq, Repr

structure ClearColor where
  r : Float := 0.0
  g : Float := 0.0
  b : Float := 0.0
  a : Float := 0.0

structure BaseAttachmentDesc where
  loadAction : LoadAction := LoadAction.DontCare
  storeAction : StoreAction := StoreAction.DontCare
  layer : Nat := 0
  face : Nat := 0
  mipLevel : Nat := 0

structure RPColorAttachmentDesc extends BaseAttachmentDesc where
  clearColor : ClearColor := {}

structure RPDepthAttachmentDesc extends BaseAttachmentDesc where
  clearDepth : Float := 1.0

structure RPStencilAttachmentDesc extends BaseAttachmentDesc where
  clearStencil : Nat := 0

instance : Inhabited BaseAttachmentDesc := ⟨{}⟩

instance : Inhabited RPColorAttachmentDesc := ⟨{}⟩

instance : Inhabited RPDepthAttachmentDesc := ⟨{}⟩

instance : Inhabited RPStencilAttachmentDesc := ⟨{}⟩

structure RenderPassDesc where
  colorAttachments : List RPColorAttachmentDesc := []
  depthAttachment : RPDepthAttachmentDesc := {}
  stencilAttachment : RPStencilAttachmentDesc := {}

instance : Inhabited RenderPassDesc := ⟨{}⟩

/-! ## The GL context: binding state, call trace, device features -/

/-- Ambient GL binding state relevant to the framebuffer code: the
renderbuffer binding and the read/draw framebuffer bindings
(`GL_FRAMEBUFFER_BINDING` aliases the draw binding). -/
structure GLState where
  renderbufferBinding : Nat := 0
  readFramebufferBinding : Nat := 0
  drawFramebufferBinding : Nat := 0
deriving DecidableEq, Repr

/-- `Texture::AttachmentParams` from `igl/opengl/Texture.h`. -/
structure AttachmentParams where
  face : Nat := 0
  mipLevel : Nat := 0
  layer : Nat := 0
  read : Bool := false
  stereo : Bool := false
deriving DecidableEq, Repr

/-- One call issued to the GL backend (or a recorded soft-assertion failure). -/
inductive GLCall where
  | getIntegerQuery (pname : Nat)
  | checkStatus (target : Nat)
  | bindFramebuffer (target : Nat) (id : Nat)
  | bindRenderbuffer (target : Nat) (id : Nat)
  | genFramebuffers (id : Nat)
  | deleteFramebuffers (id : Nat)
  | objectLabel (id : Nat) (label : String)
  | attachColor (index : Nat) (tex : Nat) (params : AttachmentParams)
  | attachDepth (tex : Nat) (params : AttachmentParams)
  | attachStencil (tex : Nat) (params : AttachmentParams)
  | drawBuffersCall (bufs : List Nat)
  | enableCap (cap : Nat)
  | disableCap (cap : Nat)
  | colorMask (r g b a : Bool)
  | clearColorCall (c : ClearColor)
  | depthMask (flag : Bool)
  | clearDepthf (d : Float)
  | stencilMask (m : Nat)
  | clearStencil (s : Nat)
  | clearCall (mask : Nat)
  | invalidate (target : Nat) (attachments : List Nat)
  | pixelStorei (pname : Nat) (value : Nat)
  | flushCall
  | readPixels (x y w h : Nat) (format : Nat) (type : Nat)
  | checkErrors
  | assertionFailed (msg : String)

/-- Effect of a call on the binding state. `bindFramebuffer GL_FRAMEBUFFER`
sets both the read and the draw binding (GL semantics); queries, attachment
calls, clears etc. leave the bindings unchanged. -/
def applyCall (s : GLState) (c : GLCall) : GLState :=
  match c with
  | GLCall.bindFramebuffer target id =>
      if target = GL_FRAMEBUFFER then
        { s with readFramebufferBinding := id, drawFramebufferBinding := id }
      else if target = GL_READ_FRAMEBUFFER then
        { s with readFramebufferBinding := id }
      else if target = GL_DRAW_FRAMEBUFFER then
        { s with drawFramebufferBinding := id }
      else s
  | GLCall.bindRenderbuffer _ id => { s with renderbufferBinding := id }
  | _ => s

/-- Device features queried by the framebuffer code
(`DeviceFeatures::ReadWriteFramebuffer`, `InternalFeatures::DebugLabel`,
`InternalFeatures::InvalidateFramebuffer`, `DeviceFeatures::SRGB`,
`TextureFeatures::TextureInteger`). -/
structure DeviceFeatureSet where
  readWriteFramebuffer : Bool := false
  debugLabel : Bool := false
  invalidateFramebuffer : Bool := false
  srgb : Bool := false
  textureInteger : Bool := false
deriving DecidableEq, Repr

/-- Backend environment: device features, the completeness status code the
backend reports for each framebuffer object id (`glCheckFramebufferStatus`
of the bound framebuffer), the alignment computed by
`opengl::Texture::getAlignment` (external collaborator, not in the excerpt),
whether `getLastError` reports success, and whether this is an OpenGL ES
build (which compiles out the `GL_FRAMEBUFFER_SRGB` enable/disable). -/
structure Env where
  features : DeviceFeatureSet := {}
  statusCode : Nat → Nat := fun _ => GL_FRAMEBUFFER_COMPLETE
  alignmentOf : Nat → Nat → Nat → Nat := fun _ _ _ => 4
  lastErrorOk : Bool := true
  openglES : Bool := false

/-- Threaded context: current binding state, the trace of issued calls, and
the next fresh framebuffer object id handed out by `glGenFramebuffers`. -/
structure GLCtx where
  glState : GLState := {}
  trace : List GLCall := []
  nextId : Nat := 1

def GLCtx.init : GLCtx := {}

def GLCtx.emit (ctx : GLCtx) (c : GLCall) : GLCtx :=
  { ctx with glState := applyCall ctx.glState c, trace := ctx.trace ++ [c] }

def GLCtx.emits (ctx : GLCtx) (l : List GLCall) : GLCtx :=
  l.foldl GLCtx.emit ctx

/-! ## checkFramebufferStatus (anonymous namespace of Framebuffer.cpp) -/

/-- Message produced by the `switch` in `checkFramebufferStatus`. -/
def statusMessage (status : Nat) : String :=
  if status = GL_FRAMEBUFFER_INCOMPLETE_ATTACHMENT then
    "GL_FRAMEBUFFER_INCOMPLETE_ATTACHMENT"
  else if status = GL_FRAMEBUFFER_INCOMPLETE_MISSING_ATTACHMENT then
    "GL_FRAMEBUFFER_INCOMPLETE_MISSING_ATTACHMENT"
  else if status = GL_FRAMEBUFFER_INCOMPLETE_DIMENSIONS then
    "GL_FRAMEBUFFER_INCOMPLETE_DIMENSIONS"
  else if status = GL_FRAMEBUFFER_UNSUPPORTED then
    "GL_FRAMEBUFFER_UNSUPPORTED"
  else "GL_FRAMEBUFFER unknown error"

/-- Models `checkFramebufferStatus(IContext&, bool read)`. The framebuffer
whose status the backend reports is the one bound at the chosen target in
the current binding state. Returns the `Result` together with the issued
query call. -/
def checkFramebufferStatusM (env : Env) (s : GLState) (read : Bool) :
    Result × GLCall :=
  let framebufferTarget :=
    if env.features.readWriteFramebuffer then
      if read then GL_READ_FRAMEBUFFER else GL_DRAW_FRAMEBUFFER
    else GL_FRAMEBUFFER
  let boundFb :=
    if env.features.readWriteFramebuffer ∧ read then s.readFramebufferBinding
    else s.drawFramebufferBinding
  let status := env.statusCode boundFb
  if status = GL_FRAMEBUFFER_COMPLETE then
    (Result.ok, GLCall.checkStatus framebufferTarget)
  else
    ({ code := ResultCode.RuntimeError, message := statusMessage status },
     GLCall.checkStatus framebufferTarget)

/-! ## FramebufferBindingGuard -/

/-- Captured bindings of `FramebufferBindingGuard` (its four member fields,
each zero-initialized in the constructor initializer list). -/
structure GuardState where
  currentRenderbuffer : Nat := 0
  currentFramebuffer : Nat := 0
  currentReadFramebuffer : Nat := 0
  currentDrawFramebuffer : Nat := 0
deriving DecidableEq, Repr

/-- Constructor of `FramebufferBindingGuard`: always reads the renderbuffer
binding; reads each framebuffer binding only when `checkFramebufferStatus`
reports the framebuffer currently bound at that target complete (fields stay
0 otherwise). Returns the captured state and the context after the reads. -/
def guardCapture (env : Env) (ctx : GLCtx) : GuardState × GLCtx :=
  let s := ctx.glState
  if env.features.readWriteFramebuffer then
    let readOk := env.statusCode s.readFramebufferBinding = GL_FRAMEBUFFER_COMPLETE
    let drawOk := env.statusCode s.drawFramebufferBinding = GL_FRAMEBUFFER_COMPLETE
    let g : GuardState :=
      { currentRenderbuffer := s.renderbufferBinding
        currentReadFramebuffer := if readOk then s.readFramebufferBinding else 0
        currentDrawFramebuffer := if drawOk then s.drawFramebufferBinding else 0 }
    let calls :=
      [GLCall.getIntegerQuery GL_RENDERBUFFER_BINDING,
       GLCall.checkStatus GL_READ_FRAMEBUFFER]
      ++ (if readOk then [GLCall.getIntegerQuery GL_READ_FRAMEBUFFER_BINDING] else [])
      ++ [GLCall.checkStatus GL_DRAW_FRAMEBUFFER]
      ++ (if drawOk then [GLCall.getIntegerQuery GL_DRAW_FRAMEBUFFER_BINDING] else [])
    (g, ctx.emits calls)
  else
    let drawOk := env.statusCode s.drawFramebufferBinding = GL_FRAMEBUFFER_COMPLETE
    let g : GuardState :=
      { currentRenderbuffer := s.renderbufferBinding
        currentFramebuffer := if drawOk then s.drawFramebufferBinding else 0 }
    let calls :=
      [GLCall.getIntegerQuery GL_RENDERBUFFER_BINDING,
       GLCall.checkStatus GL_FRAMEBUFFER]
      ++ (if drawOk then [GLCall.getIntegerQuery GL_FRAMEBUFFER_BINDING] else [])
    (g, ctx.emits calls)

/-- Destructor of `FramebufferBindingGuard`: re-binds the captured
framebuffer binding(s) (read/draw separately when the backend supports them,
the combined target otherwise) and then the captured renderbuffer binding. -/
def guardRestore (env : Env) (g : GuardState) (ctx : GLCtx) : GLCtx :=
  let ctx :=
    if env.features.readWriteFramebuffer then
      (ctx.emit (GLCall.bindFramebuffer GL_READ_FRAMEBUFFER g.currentReadFramebuffer)).emit
        (GLCall.bindFramebuffer GL_DRAW_FRAMEBUFFER g.currentDrawFramebuffer)
    else
      ctx.emit (GLCall.bindFramebuffer GL_FRAMEBUFFER g.currentFramebuffer)
  ctx.emit (GLCall.bindRenderbuffer GL_RENDERBUFFER g.currentRenderbuffer)

/-! ## Attachment parameter helpers (anonymous namespace of Framebuffer.cpp) -/

def toAttachmentParams (attachment : BaseAttachmentDesc) (mode : FramebufferMode) :
    AttachmentParams :=
  { face := attachment.face
    mipLevel := attachment.mipLevel
    layer := attachment.layer
    read := false
    stereo := mode = FramebufferMode.Stereo }

def defaultWriteAttachmentParams (mode : FramebufferMode) : AttachmentParams :=
  { face := 0, mipLevel := 0, layer := 0, read := false
    stereo := mode = FramebufferMode.Stereo }

def toReadAttachmentParams (range : TextureRangeDesc) (mode : FramebufferMode) :
    AttachmentParams :=
  { face := range.face
    mipLevel := range.mipLevel
    layer := range.layer
    read := true
    stereo := mode = FramebufferMode.Stereo }

/-! ## CustomFramebuffer state -/

/-- State of a `CustomFramebuffer`: native framebuffer id (`frameBufferID_`,
0 = unallocated), the render target (`renderTarget_`), the `initialized_`
flag (named `inited`), the lazily created resolve framebuffer child, and the
render pass cached by `bind` for `unbind` (`renderPass_`). -/
inductive CFB where
  | mk (frameBufferID : Nat) (renderTarget : FramebufferDesc) (inited : Bool)
       (resolveFramebuffer : Option CFB) (renderPass : RenderPassDesc)

def CFB.frameBufferID : CFB → Nat
  | CFB.mk v _ _ _ _ => v

def CFB.renderTarget : CFB → FramebufferDesc
  | CFB.mk _ v _ _ _ => v

def CFB.inited : CFB → Bool
  | CFB.mk _ _ v _ _ => v

def CFB.resolveFramebuffer : CFB → Option CFB
  | CFB.mk _ _ _ v _ => v

def CFB.renderPass : CFB → RenderPassDesc
  | CFB.mk _ _ _ _ v => v

/-- A freshly constructed `CustomFramebuffer`. -/
def CFB.fresh : CFB := CFB.mk 0 {} false none {}

def CFB.setFrameBufferID : CFB → Nat → CFB
  | CFB.mk _ b c d e, v => CFB.mk v b c d e

def CFB.setRenderTarget : CFB → FramebufferDesc → CFB
  | CFB.mk a _ c d e, v => CFB.mk a v c d e

def CFB.setInited : CFB → Bool → CFB
  | CFB.mk a b _ d e, v => CFB.mk a b v d e

def CFB.setResolveFramebuffer : CFB → Option CFB → CFB
  | CFB.mk a b c _ e, v => CFB.mk a b c v e

def CFB.setRenderPass : CFB → RenderPassDesc → CFB
  | CFB.mk a b c d _, v => CFB.mk a b c d v

/-- Models `CustomFramebuffer::getColorAttachment`. -/
def CFB.getColorAttachment (st : CFB) (index : Nat) : Option Texture :=
  match findAttachment st.renderTarget.colorAttachments index with
  | some ad => ad.texture
  | none => none

/-- Models `CustomFramebuffer::hasImplicitColorAttachment`, as a function of
the native framebuffer id and the render target it reads. -/
def fbHasImplicitColor (frameBufferID : Nat) (rt : FramebufferDesc) : Bool :=
  if frameBufferID ≠ 0 then false
  else
    match findAttachment rt.colorAttachments 0 with
    | some ad =>
      match ad.texture with
      | some t => t.isImplicitStorage
      | none => false
    | none => false

def CFB.hasImplicitColorAttachment (st : CFB) : Bool :=
  fbHasImplicitColor st.frameBufferID st.renderTarget

/-- Models `Framebuffer::bindBuffer`. -/
def bindBuffer (st : CFB) (ctx : GLCtx) : GLCtx :=
  ctx.emit (GLCall.bindFramebuffer GL_FRAMEBUFFER st.frameBufferID)

/-- Models `Framebuffer::bindBufferForRead`. -/
def bindBufferForRead (env : Env) (st : CFB) (ctx : GLCtx) : GLCtx :=
  if env.features.readWriteFramebuffer then
    ctx.emit (GLCall.bindFramebuffer GL_READ_FRAMEBUFFER st.frameBufferID)
  else bindBuffer st ctx

/-! ## CustomFramebuffer::initialize and prepareResource -/

def insertSorted (n : Nat) : List Nat → List Nat
  | [] => [n]
  | m :: ms => if n ≤ m then n :: m :: ms else m :: insertSorted n ms

/-- Ascending sort of the `drawBuffers` vector (`std::sort`). -/
def sortNats : List Nat → List Nat
  | [] => []
  | n :: ns => insertSorted n (sortNats ns)

/-- One iteration of the color-attachment loop in
`CustomFramebuffer::prepareResource`: a non-null texture is attached at its
index and contributes `GL_COLOR_ATTACHMENT0 + index` to `drawBuffers`. -/
def prepareColorStep (attachmentParams : AttachmentParams)
    (acc : List Nat × GLCtx) (colorAttachment : Nat × AttachmentDesc) :
    List Nat × GLCtx :=
  match colorAttachment.2.texture with
  | none => acc
  | some tex =>
    (acc.1 ++ [GL_COLOR_ATTACHMENT0 + colorAttachment.1],
     acc.2.emit (GLCall.attachColor colorAttachment.1 tex.id attachmentParams))

/-- Color attachments of the resolve framebuffer description: one entry per
color attachment carrying a resolve texture (the loop at the top of the
resolve-framebuffer section of `prepareResource`). -/
def resolveColorAttachments (l : List (Nat × AttachmentDesc)) :
    List (Nat × AttachmentDesc) :=
  l.filterMap (fun colorAttachment =>
    colorAttachment.2.resolveTexture.map
      (fun rt => (colorAttachment.1, ({ texture := some rt } : AttachmentDesc))))

/-- Allocation-and-attach phase of `CustomFramebuffer::prepareResource`:
generate the framebuffer object (the state already carries the fresh id),
bind it, attach every non-null color attachment accumulating `drawBuffers`,
issue `glDrawBuffers` when there are at least two, then attach the depth and
stencil textures. -/
def prepareAttach (st : CFB) (ctx : GLCtx) : GLCtx :=
  let ctx := { ctx with nextId := ctx.nextId + 1 }
  let ctx := ctx.emit (GLCall.genFramebuffers st.frameBufferID)
  let ctx := bindBuffer st ctx
  let attachmentParams := defaultWriteAttachmentParams st.renderTarget.mode
  let (drawBuffers, ctx) :=
    st.renderTarget.colorAttachments.foldl (prepareColorStep attachmentParams) ([], ctx)
  let drawBuffers := sortNats drawBuffers
  let ctx :=
    if 1 < drawBuffers.length then ctx.emit (GLCall.drawBuffersCall drawBuffers)
    else ctx
  let ctx :=
    match st.renderTarget.depthAttachment.texture with
    | some tex => ctx.emit (GLCall.attachDepth tex.id attachmentParams)
    | none => ctx
  match st.renderTarget.stencilAttachment.texture with
  | some tex => ctx.emit (GLCall.attachStencil tex.id attachmentParams)
  | none => ctx

/-- The resolve-framebuffer description built by `prepareResource`: the
color attachments carrying resolve textures, plus the depth/stencil resolve
textures; the flag says whether any resolve texture was found. -/
def resolveFBDesc (rt : FramebufferDesc) : Bool × FramebufferDesc :=
  let resolveColor := resolveColorAttachments rt.colorAttachments
  let createResolveFramebuffer := ¬ resolveColor.isEmpty
  let resolveDesc : FramebufferDesc := { colorAttachments := resolveColor }
  let (createResolveFramebuffer, resolveDesc) :=
    match rt.depthAttachment.resolveTexture with
    | some dr =>
      (true, { resolveDesc with depthAttachment := { texture := some dr } })
    | none => (createResolveFramebuffer, resolveDesc)
  match rt.stencilAttachment.resolveTexture with
  | some sr =>
    (true, { resolveDesc with stencilAttachment := { texture := some sr } })
  | none => (createResolveFramebuffer, resolveDesc)

/-- Models `CustomFramebuffer::prepareResource(outResult)`, parameterized by
the function used to initialize the child resolve framebuffer (in the C++
this is the recursive `initialize` call on a freshly constructed
`CustomFramebuffer`). -/
def prepareResourceWith
    (childInit : FramebufferDesc → GLCtx → CFB × Result × GLCtx)
    (env : Env) (st : CFB) (ctx : GLCtx) : CFB × Result × GLCtx :=
  let st := st.setFrameBufferID ctx.nextId
  let ctx := prepareAttach st ctx
  let (result, statusCall) := checkFramebufferStatusM env ctx.glState false
  let ctx := ctx.emit statusCall
  let ctx :=
    if ¬ result.isOk then ctx.emit (GLCall.assertionFailed result.message) else ctx
  if ¬ result.isOk then
    (st, result, ctx)
  else
    let resolveColor := resolveColorAttachments st.renderTarget.colorAttachments
    if ¬ resolveColor.isEmpty ∧
        resolveColor.length ≠ st.renderTarget.colorAttachments.length then
      let ctx := ctx.emit (GLCall.assertionFailed "IGL_ASSERT_NOT_REACHED")
      (st,
       { code := ResultCode.ArgumentInvalid,
         message := "If resolve texture is specified on a color attachment it must be specified on all of them" },
       ctx)
    else
      let (createResolveFramebuffer, resolveDesc) := resolveFBDesc st.renderTarget
      if createResolveFramebuffer then
        let (child, childResult, ctx) := childInit resolveDesc ctx
        (st.setResolveFramebuffer (some child), childResult, ctx)
      else
        (st, result, ctx)

/-- Models `CustomFramebuffer::initialize(desc, outResult)` (the C++ name
`initialize` is kept out of Lean identifiers), parameterized by the
`prepareResource` body. Returns the new state, the value stored in
`outResult`, and the threaded context. -/
def cfbInitWith (prepare : CFB → GLCtx → CFB × Result × GLCtx)
    (env : Env) (st : CFB) (desc : FramebufferDesc) (ctx : GLCtx) :
    CFB × Result × GLCtx :=
  if st.inited then
    (st,
     { code := ResultCode.RuntimeError, message := "Framebuffer already initialized." },
     ctx)
  else
    let st := (st.setInited true).setRenderTarget desc
    let (g, ctx) := guardCapture env ctx
    let ctx :=
      if desc.debugName ≠ "" ∧ env.features.debugLabel then
        ctx.emit (GLCall.objectLabel st.frameBufferID desc.debugName)
      else ctx
    if st.hasImplicitColorAttachment then
      (st, Result.ok, guardRestore env g ctx)
    else
      let (st, r, ctx) := prepare st ctx
      (st, r, guardRestore env g ctx)

/-- Result of `prepareResource` when the resolve-framebuffer recursion has
exhausted its fuel (cannot happen for fuel at least 2, since a resolve
description never carries resolve textures itself). -/
def fuelExhausted (st : CFB) (ctx : GLCtx) : CFB × Result × GLCtx :=
  (st, { code := ResultCode.RuntimeError, message := "resolve nesting too deep" }, ctx)

/-- `CustomFramebuffer::initialize`, with `fuel` bounding resolve-framebuffer
nesting depth. -/
def cfbInit : Nat → Env → CFB → FramebufferDesc → GLCtx → CFB × Result × GLCtx
  | 0, env, st, desc, ctx => cfbInitWith fuelExhausted env st desc ctx
  | fuel + 1, env, st, desc, ctx =>
    cfbInitWith
      (prepareResourceWith (fun d c => cfbInit fuel env CFB.fresh d c) env)
      env st desc ctx

/-- `CustomFramebuffer::prepareResource`, with `fuel` bounding
resolve-framebuffer nesting depth. -/
def prepareResource (fuel : Nat) (env : Env) (st : CFB) (ctx : GLCtx) :
    CFB × Result × GLCtx :=
  match fuel with
  | 0 => fuelExhausted st ctx
  | fuel + 1 =>
    prepareResourceWith (fun d c => cfbInit fuel env CFB.fresh d c) env st ctx

/-! ## CustomFramebuffer::bind -/

/-- The local `needsToBeReattached` condition in `CustomFramebuffer::bind`:
at `initialize` time attachments were made with layer 0, mip 0, face 0 and
non-stereo, so re-attachment is needed exactly when the mode is stereo or
the render pass asks for a nonzero layer, face or mip level. -/
def needsToBeReattached (mode : FramebufferMode) (a : BaseAttachmentDesc) : Bool :=
  decide (mode = FramebufferMode.Stereo) || decide (0 < a.layer) ||
    decide (0 < a.face) || decide (0 < a.mipLevel)

/-- Calls issued by one iteration of the color-attachment loop in
`CustomFramebuffer::bind`: the sRGB enable/disable (compiled out on OpenGL
ES), the soft bounds assertion on the render-pass attachment vector, and the
conditional re-attachment. -/
def colorBindCalls (env : Env) (mode : FramebufferMode) (renderPass : RenderPassDesc)
    (colorAttachment : Nat × AttachmentDesc) : List GLCall :=
  match colorAttachment.2.texture with
  | none => []
  | some tex =>
    let srgbCalls :=
      if ¬ env.openglES ∧ env.features.srgb then
        if tex.properties.isSRGB then [GLCall.enableCap GL_FRAMEBUFFER_SRGB]
        else [GLCall.disableCap GL_FRAMEBUFFER_SRGB]
      else []
    let index := colorAttachment.1
    let assertCalls :=
      if renderPass.colorAttachments.length ≤ index then
        [GLCall.assertionFailed "color attachment index out of range"]
      else []
    let renderPassAttachment :=
      (renderPass.colorAttachments.getD index default).toBaseAttachmentDesc
    let attachCalls :=
      if needsToBeReattached mode renderPassAttachment then
        [GLCall.attachColor index tex.id (toAttachmentParams renderPassAttachment mode)]
      else []
    srgbCalls ++ assertCalls ++ attachCalls

/-- Calls of the depth-attachment reconciliation block in
`CustomFramebuffer::bind`: the depth texture is re-attached exactly when
`needsToBeReattached` holds for the render pass depth attachment. -/
def depthBindCalls (mode : FramebufferMode) (renderPass : RenderPassDesc)
    (texture : Option Texture) : List GLCall :=
  match texture with
  | some tex =>
    if needsToBeReattached mode renderPass.depthAttachment.toBaseAttachmentDesc then
      [GLCall.attachDepth tex.id
        (toAttachmentParams renderPass.depthAttachment.toBaseAttachmentDesc mode)]
    else []
  | none => []

/-- The color-clear condition in `bind`: color attachment 0 is present in the
map, its texture is non-null, and the render-pass load action is `Clear`. -/
def shouldClearColor (rt : FramebufferDesc) (renderPass : RenderPassDesc) : Bool :=
  (match findAttachment rt.colorAttachments 0 with
   | some ad => ad.texture.isSome
   | none => false)
  && ((renderPass.colorAttachments.getD 0 default).loadAction == LoadAction.Clear)

/-- The depth-clear condition in `bind`. -/
def shouldClearDepth (rt : FramebufferDesc) (renderPass : RenderPassDesc) : Bool :=
  rt.depthAttachment.texture.isSome
    && (renderPass.depthAttachment.loadAction == LoadAction.Clear)

/-- The stencil-clear condition in `bind`. -/
def shouldClearStencil (rt : FramebufferDesc) (renderPass : RenderPassDesc) : Bool :=
  rt.stencilAttachment.texture.isSome
    && (renderPass.stencilAttachment.loadAction == LoadAction.Clear)

/-- The `clearMask` accumulated by `bind` (bitwise or of the GL clear bits of
the aspects whose clear condition holds). -/
def bindClearMask (rt : FramebufferDesc) (renderPass : RenderPassDesc) : Nat :=
  (if shouldClearColor rt renderPass then GL_COLOR_BUFFER_BIT else 0) |||
  (if shouldClearDepth rt renderPass then GL_DEPTH_BUFFER_BIT else 0) |||
  (if shouldClearStencil rt renderPass then GL_STENCIL_BUFFER_BIT else 0)

/-- Models `CustomFramebuffer::bind(renderPass)`: caches the render pass,
soft-asserts that the mode is not multiview, binds the framebuffer,
reconciles color and depth attachments against the render pass, and applies
the load-action clears. Returns the new state and the threaded context. -/
def bindFB (env : Env) (st : CFB) (renderPass : RenderPassDesc) (ctx : GLCtx) :
    CFB × GLCtx :=
  let st := st.setRenderPass renderPass
  let ctx :=
    if st.renderTarget.mode = FramebufferMode.Multiview then
      ctx.emit (GLCall.assertionFailed "FramebufferMode::Multiview not supported")
    else ctx
  let ctx := bindBuffer st ctx
  let ctx := st.renderTarget.colorAttachments.foldl
      (fun ctx colorAttachment =>
        ctx.emits (colorBindCalls env st.renderTarget.mode renderPass colorAttachment))
      ctx
  let ctx :=
    ctx.emits
      (depthBindCalls st.renderTarget.mode renderPass
        st.renderTarget.depthAttachment.texture)
  let ctx :=
    if shouldClearColor st.renderTarget renderPass then
      (ctx.emit (GLCall.colorMask true true true true)).emit
        (GLCall.clearColorCall (renderPass.colorAttachments.getD 0 default).clearColor)
    else ctx
  let ctx :=
    if shouldClearDepth st.renderTarget renderPass then
      (ctx.emit (GLCall.depthMask true)).emit
        (GLCall.clearDepthf renderPass.depthAttachment.clearDepth)
    else ctx
  let ctx :=
    if st.renderTarget.stencilAttachment.texture.isSome then
      ctx.emit (GLCall.enableCap GL_STENCIL_TEST)
    else ctx
  let ctx :=
    if shouldClearStencil st.renderTarget renderPass then
      (ctx.emit (GLCall.stencilMask 0xFF)).emit
        (GLCall.clearStencil renderPass.stencilAttachment.clearStencil)
    else ctx
  let clearMask := bindClearMask st.renderTarget renderPass
  let ctx := if clearMask ≠ 0 then ctx.emit (GLCall.clearCall clearMask) else ctx
  (st, ctx)

/-! ## CustomFramebuffer::unbind -/

/-- The `attachments` array built by `CustomFramebuffer::unbind`: one entry
per existing attachment (color 0, depth, stencil, in that order) whose
cached render-pass store action is not `Store`. -/
def unbindAttachments (rt : FramebufferDesc) (renderPass : RenderPassDesc) :
    List Nat :=
  (if (match findAttachment rt.colorAttachments 0 with
       | some ad => ad.texture.isSome
       | none => false)
      && ((renderPass.colorAttachments.getD 0 default).storeAction != StoreAction.Store)
   then [GL_COLOR_ATTACHMENT0] else [])
  ++ (if rt.depthAttachment.texture.isSome
        && (renderPass.depthAttachment.storeAction != StoreAction.Store)
      then [GL_DEPTH_ATTACHMENT] else [])
  ++ (if rt.stencilAttachment.texture.isSome
        && (renderPass.stencilAttachment.storeAction != StoreAction.Store)
      then [GL_STENCIL_ATTACHMENT] else [])

/-- Models `CustomFramebuffer::unbind()`: disables the stencil test when a
stencil attachment exists, and issues a single `glInvalidateFramebuffer`
with the discardable attachments when there are any and the backend has the
invalidate capability. -/
def unbindFB (env : Env) (st : CFB) (ctx : GLCtx) : GLCtx :=
  let attachments := unbindAttachments st.renderTarget st.renderPass
  let ctx :=
    if st.renderTarget.stencilAttachment.texture.isSome then
      ctx.emit (GLCall.disableCap GL_STENCIL_TEST)
    else ctx
  if 0 < attachments.length ∧ env.features.invalidateFramebuffer then
    ctx.emit (GLCall.invalidate GL_FRAMEBUFFER attachments)
  else ctx

/-! ## Framebuffer::copyBytesColorAttachment -/

/-- Soft assertions at the top of `toReadAttachmentParams`. -/
def toReadAttachmentParamsAsserts (range : TextureRangeDesc) : List GLCall :=
  (if range.numLayers ≠ 1 then [GLCall.assertionFailed "range.numLayers must be 1."] else [])
  ++ (if range.numMipLevels ≠ 1 then [GLCall.assertionFailed "range.numMipLevels must be 1."] else [])
  ++ (if range.numFaces ≠ 1 then [GLCall.assertionFailed "range.numFaces must be 1."] else [])

/-- Models `Framebuffer::copyBytesColorAttachment(queue, index, pixelBytes,
range, bytesPerRow)`: attachment 0 only (a nonzero index soft-asserts and
returns without reading), reads back through a throwaway framebuffer under a
binding guard, choosing the pixel-transfer format by whether the attachment
format is `RGBA_UInt32`. The caller buffer is filled exactly by the
`readPixels` call in the trace. -/
def copyBytesColorAttachment (env : Env) (st : CFB) (index : Nat)
    (range : TextureRangeDesc) (bytesPerRow : Nat) (ctx : GLCtx) : GLCtx :=
  if index ≠ 0 then ctx.emit (GLCall.assertionFailed "Invalid index")
  else
    let ctx :=
      if range.numFaces ≠ 1 then
        ctx.emit (GLCall.assertionFailed "range.numFaces MUST be 1")
      else ctx
    let ctx :=
      if range.numLayers ≠ 1 then
        ctx.emit (GLCall.assertionFailed "range.numLayers MUST be 1")
      else ctx
    let ctx :=
      if range.numMipLevels ≠ 1 then
        ctx.emit (GLCall.assertionFailed "range.numMipLevels MUST be 1")
      else ctx
    match st.getColorAttachment index with
    | none => ctx.emit (GLCall.assertionFailed "IGL_ASSERT_NOT_IMPLEMENTED")
    | some itexture =>
      let (g, ctx) := guardCapture env ctx
      let desc : FramebufferDesc :=
        { colorAttachments := [(0, { texture := some itexture })] }
      let (extraFramebuffer, ret, ctx) := cfbInit 1 env CFB.fresh desc ctx
      let ctx :=
        if ¬ ret.isOk then ctx.emit (GLCall.assertionFailed ret.message) else ctx
      let ctx := bindBufferForRead env extraFramebuffer ctx
      let ctx := ctx.emits (toReadAttachmentParamsAsserts range)
      let ctx :=
        ctx.emit
          (GLCall.attachColor 0 itexture.id
            (toReadAttachmentParams range FramebufferMode.Mono))
      let (_, statusCall) := checkFramebufferStatusM env ctx.glState true
      let ctx := ctx.emit statusCall
      let bpr :=
        if bytesPerRow = 0 then itexture.properties.getBytesPerRowRange range
        else bytesPerRow
      let ctx :=
        ctx.emit (GLCall.pixelStorei GL_PACK_ALIGNMENT
          (env.alignmentOf itexture.id bpr range.mipLevel))
      let ctx := ctx.emit GLCall.flushCall
      let ctx :=
        if itexture.format = TextureFormat.RGBA_UInt32 then
          if env.features.textureInteger then
            ctx.emit (GLCall.readPixels range.x range.y range.width range.height
              GL_RGBA_INTEGER GL_UNSIGNED_INT)
          else ctx.emit (GLCall.assertionFailed "IGL_ASSERT_NOT_IMPLEMENTED")
        else
          ctx.emit (GLCall.readPixels range.x range.y range.width range.height
            GL_RGBA GL_UNSIGNED_BYTE)
      let ctx := ctx.emit GLCall.checkErrors
      let ctx :=
        if ¬ env.lastErrorOk then
          ctx.emit (GLCall.assertionFailed "getLastError failed")
        else ctx
      let ctx :=
        if extraFramebuffer.frameBufferID ≠ 0 then
          ctx.emit (GLCall.deleteFramebuffers extraFramebuffer.frameBufferID)
        else ctx
      guardRestore env g ctx

/-! ## Basic lemmas about the threaded context -/

@[simp]
theorem GLCtx.emit_trace (ctx : GLCtx) (c : GLCall) :
    (ctx.emit c).trace = ctx.trace ++ [c] := rfl

@[simp]
theorem GLCtx.emit_nextId (ctx : GLCtx) (c : GLCall) :
    (ctx.emit c).nextId = ctx.nextId := rfl

@[simp]
theorem GLCtx.emit_glState (ctx : GLCtx) (c : GLCall) :
    (ctx.emit c).glState = applyCall ctx.glState c := rfl

@[simp]
theorem GLCtx.emits_trace (l : List GLCall) (ctx : GLCtx) :
    (ctx.emits l).trace = ctx.trace ++ l := by
  induction l generalizing ctx with
  | nil => simp [GLCtx.emits]
  | cons c cs ih =>
    show ((ctx.emit c).emits cs).trace = _
    rw [ih]
    simp

@[simp]
theorem GLCtx.emits_nextId (l : List GLCall) (ctx : GLCtx) :
    (ctx.emits l).nextId = ctx.nextId := by
  induction l generalizing ctx with
  | nil => rfl
  | cons c cs ih =>
    show ((ctx.emit c).emits cs).nextId = _
    rw [ih]
    rfl

/-- Calls that leave the binding state untouched. -/
def callNeutral (c : GLCall) : Prop := ∀ s, applyCall s c = s

theorem emits_glState_of_neutral (l : List GLCall) (ctx : GLCtx)
    (h : ∀ c ∈ l, callNeutral c) : (ctx.emits l).glState = ctx.glState := by
  induction l generalizing ctx with
  | nil => rfl
  | cons c cs ih =>
    show ((ctx.emit c).emits cs).glState = _
    rw [ih _ (fun c hc => h c (List.mem_cons_of_mem _ hc))]
    simp [h c (List.mem_cons_self ..)  ctx.glState]

theorem guardCapture_glState (env : Env) (ctx : GLCtx) :
    ((guardCapture env ctx).2).glState = ctx.glState := by
  unfold guardCapture
  split
  · dsimp only
    split <;> split <;> rfl
  · dsimp only
    split <;> rfl

@[simp]
theorem guardCapture_nextId (env : Env) (ctx : GLCtx) :
    ((guardCapture env ctx).2).nextId = ctx.nextId := by
  unfold guardCapture
  split <;> simp

/-! ## Accessor lemmas for the framebuffer state -/

@[simp]
theorem CFB.setInited_inited (st : CFB) (v : Bool) : (st.setInited v).inited = v := by
  cases st; rfl

@[simp]
theorem CFB.setInited_frameBufferID (st : CFB) (v : Bool) :
    (st.setInited v).frameBufferID = st.frameBufferID := by
  cases st; rfl

@[simp]
theorem CFB.setInited_renderTarget (st : CFB) (v : Bool) :
    (st.setInited v).renderTarget = st.renderTarget := by
  cases st; rfl

@[simp]
theorem CFB.setRenderTarget_inited (st : CFB) (v : FramebufferDesc) :
    (st.setRenderTarget v).inited = st.inited := by
  cases st; rfl

@[simp]
theorem CFB.setRenderTarget_renderTarget (st : CFB) (v : FramebufferDesc) :
    (st.setRenderTarget v).renderTarget = v := by
  cases st; rfl

@[simp]
theorem CFB.setRenderTarget_frameBufferID (st : CFB) (v : FramebufferDesc) :
    (st.setRenderTarget v).frameBufferID = st.frameBufferID := by
  cases st; rfl

@[simp]
theorem CFB.setRenderTarget_resolveFramebuffer (st : CFB) (v : FramebufferDesc) :
    (st.setRenderTarget v).resolveFramebuffer = st.resolveFramebuffer := by
  cases st; rfl

@[simp]
theorem CFB.setInited_resolveFramebuffer (st : CFB) (v : Bool) :
    (st.setInited v).resolveFramebuffer = st.resolveFramebuffer := by
  cases st; rfl

@[simp]
theorem CFB.setFrameBufferID_inited (st : CFB) (v : Nat) :
    (st.setFrameBufferID v).inited = st.inited := by
  cases st; rfl

@[simp]
theorem CFB.setFrameBufferID_renderTarget (st : CFB) (v : Nat) :
    (st.setFrameBufferID v).renderTarget = st.renderTarget := by
  cases st; rfl

@[simp]
theorem CFB.setFrameBufferID_frameBufferID (st : CFB) (v : Nat) :
    (st.setFrameBufferID v).frameBufferID = v := by
  cases st; rfl

@[simp]
theorem CFB.setFrameBufferID_resolveFramebuffer (st : CFB) (v : Nat) :
    (st.setFrameBufferID v).resolveFramebuffer = st.resolveFramebuffer := by
  cases st; rfl

@[simp]
theorem CFB.setResolveFramebuffer_inited (st : CFB) (v : Option CFB) :
    (st.setResolveFramebuffer v).inited = st.inited := by
  cases st; rfl

@[simp]
theorem CFB.setResolveFramebuffer_renderTarget (st : CFB) (v : Option CFB) :
    (st.setResolveFramebuffer v).renderTarget = st.renderTarget := by
  cases st; rfl

@[simp]
theorem CFB.setResolveFramebuffer_frameBufferID (st : CFB) (v : Option CFB) :
    (st.setResolveFramebuffer v).frameBufferID = st.frameBufferID := by
  cases st; rfl

@[simp]
theorem CFB.setResolveFramebuffer_resolveFramebuffer (st : CFB) (v : Option CFB) :
    (st.setResolveFramebuffer v).resolveFramebuffer = v := by
  cases st; rfl

@[simp]
theorem CFB.setRenderPass_renderTarget (st : CFB) (v : RenderPassDesc) :
    (st.setRenderPass v).renderTarget = st.renderTarget := by
  cases st; rfl

@[simp]
theorem CFB.setRenderPass_frameBufferID (st : CFB) (v : RenderPassDesc) :
    (st.setRenderPass v).frameBufferID = st.frameBufferID := by
  cases st; rfl

@[simp]
theorem CFB.setRenderPass_renderPass (st : CFB) (v : RenderPassDesc) :
    (st.setRenderPass v).renderPass = v := by
  cases st; rfl

/-! ## Shared helper lemmas about cfbInit -/

/-- Calling `cfbInit` on an already-initialized controller returns the
already-initialized error, issues nothing, and changes nothing. -/
theorem cfbInitWith_already (prepare : CFB → GLCtx → CFB × Result × GLCtx)
    (env : Env) (st : CFB) (desc : FramebufferDesc) (ctx : GLCtx)
    (h : st.inited = true) :
    cfbInitWith prepare env st desc ctx =
      (st,
       { code := ResultCode.RuntimeError, message := "Framebuffer already initialized." },
       ctx) := by
  unfold cfbInitWith
  simp [h]

/-- Calling `cfbInit` on an already-initialized controller returns the
already-initialized error, issues nothing, and changes nothing. -/
theorem cfbInit_already (fuel : Nat) (env : Env) (st : CFB) (desc : FramebufferDesc)
    (ctx : GLCtx) (h : st.inited = true) :
    cfbInit fuel env st desc ctx =
      (st,
       { code := ResultCode.RuntimeError, message := "Framebuffer already initialized." },
       ctx) := by
  cases fuel with
  | zero => exact cfbInitWith_already _ env st desc ctx h
  | succ n => exact cfbInitWith_already _ env st desc ctx h

/-- `prepareResourceWith` never changes the `initialized_` flag. -/
theorem prepareResourceWith_inited
    (childInit : FramebufferDesc → GLCtx → CFB × Result × GLCtx)
    (env : Env) (st : CFB) (ctx : GLCtx) :
    ((prepareResourceWith childInit env st ctx).1).inited = st.inited := by
  unfold prepareResourceWith
  dsimp only
  repeat' split
  all_goals simp

theorem cfbInitWith_inited (prepare : CFB → GLCtx → CFB × Result × GLCtx)
    (env : Env) (st : CFB) (desc : FramebufferDesc) (ctx : GLCtx)
    (hprep : ∀ st2 ctx2, ((prepare st2 ctx2).1).inited = st2.inited)
    (h : st.inited = false) :
    ((cfbInitWith prepare env st desc ctx).1).inited = true := by
  unfold cfbInitWith
  rw [if_neg (by simp [h])]
  dsimp only
  split <;> split <;> simp [hprep]

/-- After any `cfbInit` call on a not-yet-initialized controller, the
controller counts as initialized, whatever the call's outcome. -/
theorem cfbInit_inited (fuel : Nat) (env : Env) (st : CFB) (desc : FramebufferDesc)
    (ctx : GLCtx) (h : st.inited = false) :
    ((cfbInit fuel env st desc ctx).1).inited = true := by
  cases fuel with
  | zero => exact cfbInitWith_inited _ env st desc ctx (fun _ _ => rfl) h
  | succ n =>
    exact cfbInitWith_inited _ env st desc ctx
      (fun st2 ctx2 => prepareResourceWith_inited _ env st2 ctx2) h

/-! ## Concrete objects used by witnesses and counterexamples -/

/-- A plain (non-implicit-storage) color texture. -/
def texA : Texture := { id := 10 }

/-- Another plain texture, used as a resolve target. -/
def texR : Texture := { id := 11 }

/-- A plain depth texture. -/
def texD : Texture := { id := 12, format := TextureFormat.Z_UNorm24 }

/-- A second color texture. -/
def texB : Texture := { id := 13 }

/-- A framebuffer description with a single, index-0 color attachment. -/
def descOneColor : FramebufferDesc :=
  { colorAttachments := [(0, { texture := some texA })] }

/-- An environment whose backend reports every framebuffer incomplete
(`GL_FRAMEBUFFER_UNSUPPORTED`). -/
def envIncomplete : Env := { statusCode := fun _ => GL_FRAMEBUFFER_UNSUPPORTED }

/-- An environment with separate read/draw framebuffer targets whose backend
reports every framebuffer complete. -/
def envRWOk : Env := { features := { readWriteFramebuffer := true } }

/-- A context with renderbuffer 3 bound and framebuffer 5 bound at both
targets. -/
def ctxBound5 : GLCtx :=
  { glState :=
    { renderbufferBinding := 3, readFramebufferBinding := 5, drawFramebufferBinding := 5 } }

/-! ## Claim C1 -/

/-- C1: on a controller on which `initialize` has already been called, any
subsequent `initialize` call fails with the already-initialized
`RuntimeError`, issues no backend call (the context, hence the trace, is
returned unchanged), and leaves the controller state (native handle,
attachment set, initialized flag) unchanged. -/
theorem cfbInit_on_inited_rejected (fuel : Nat) (env : Env) (st : CFB)
    (desc : FramebufferDesc) (ctx : GLCtx) (h : st.inited = true) :
    (cfbInit fuel env st desc ctx).2.1 =
      { code := ResultCode.RuntimeError, message := "Framebuffer already initialized." } ∧
    (cfbInit fuel env st desc ctx).1 = st ∧
    (cfbInit fuel env st desc ctx).2.2 = ctx := by
  rw [cfbInit_already fuel env st desc ctx h]
  exact ⟨rfl, rfl, rfl⟩

theorem cfbInit_on_inited_rejected_witness :
    (CFB.fresh.setInited true).inited = true ∧
    (cfbInit 1 {} (CFB.fresh.setInited true) descOneColor GLCtx.init).2.1 =
      { code := ResultCode.RuntimeError, message := "Framebuffer already initialized." } ∧
    (cfbInit 1 {} (CFB.fresh.setInited true) descOneColor GLCtx.init).2.2.trace = [] :=
  ⟨rfl,
   (cfbInit_on_inited_rejected 1 {} (CFB.fresh.setInited true) descOneColor GLCtx.init rfl).1,
   by
     rw [(cfbInit_on_inited_rejected 1 {} (CFB.fresh.setInited true) descOneColor
       GLCtx.init rfl).2.2]
     rfl⟩

/-! ## Claim C10 -/

/-- C10: `initialize` marks the controller initialized before any framebuffer
allocation, attachment or completeness check, so whatever the outcome of a
first `initialize` call on a fresh controller (in particular an error from
an incomplete framebuffer or mismatched resolve attachments), the resulting
instance counts as initialized and every later `initialize` call on it fails
with the already-initialized error without changing anything: a failed
`initialize` can never be retried. -/
theorem cfbInit_marks_inited_first (fuel : Nat) (env : Env) (st : CFB)
    (desc : FramebufferDesc) (ctx : GLCtx) (h : st.inited = false) :
    ((cfbInit fuel env st desc ctx).1).inited = true ∧
    ∀ fuel2 env2 desc2 ctx2,
      cfbInit fuel2 env2 (cfbInit fuel env st desc ctx).1 desc2 ctx2 =
        ((cfbInit fuel env st desc ctx).1,
         { code := ResultCode.RuntimeError, message := "Framebuffer already initialized." },
         ctx2) := by
  have h1 := cfbInit_inited fuel env st desc ctx h
  exact ⟨h1, fun fuel2 env2 desc2 ctx2 => cfbInit_already fuel2 env2 _ desc2 ctx2 h1⟩

theorem cfbInit_marks_inited_first_witness :
    CFB.fresh.inited = false ∧
    ((cfbInit 2 envIncomplete CFB.fresh descOneColor GLCtx.init).2.1).isOk = false ∧
    ((cfbInit 2 envIncomplete CFB.fresh descOneColor GLCtx.init).1).inited = true ∧
    (cfbInit 2 envIncomplete (cfbInit 2 envIncomplete CFB.fresh descOneColor GLCtx.init).1
        descOneColor GLCtx.init).2.1 =
      { code := ResultCode.RuntimeError, message := "Framebuffer already initialized." } := by
  have hmain := cfbInit_marks_inited_first 2 envIncomplete CFB.fresh descOneColor GLCtx.init rfl
  refine ⟨rfl, by decide, hmain.1, ?_⟩
  rw [hmain.2 2 envIncomplete descOneColor GLCtx.init]

/-! ## Claim C9 (corrected) -/

/-- RGBA8: 4 bytes per pixel, no blocking. -/
def rgba8Props : TextureFormatProperties :=
  { format := TextureFormat.RGBA_UNorm8, componentsPerPixel := 4, bytesPerBlock := 4 }

/-- C9 counterexample: for the format with `bytesPerBlock = 4`,
`blockWidth = 1` (and `minBlocksX = 1`), `getBytesPerRow 0` is 4, not
`4 * 0 = 0`, because the result is clamped below by
`minBlocksX * bytesPerBlock`; so `getBytesPerRow width = 4 * width` fails at
`width = 0`. -/
theorem getBytesPerRow_not_linear_at_zero :
    rgba8Props.bytesPerBlock = 4 ∧ rgba8Props.blockWidth = 1 ∧
    rgba8Props.getBytesPerRow 0 ≠ 4 * 0 := by
  refine ⟨rfl, rfl, ?_⟩
  decide

/-- C9 amended: for every fixed format, `getBytesPerRow` is monotonically
non-decreasing in the width; and for a format with `bytesPerBlock = 4` and
`blockWidth = 1`, `getBytesPerRow width` equals `4 * width` for every width
of at least `minBlocksX` blocks (below that the clamp to
`minBlocksX * bytesPerBlock` takes over). -/
theorem getBytesPerRow_monotone_and_linear (p : TextureFormatProperties)
    (w v : Nat) (hwv : w ≤ v) :
    p.getBytesPerRow w ≤ p.getBytesPerRow v ∧
    (p.bytesPerBlock = 4 → p.blockWidth = 1 → p.minBlocksX ≤ w →
      p.getBytesPerRow w = 4 * w) := by
  constructor
  · unfold TextureFormatProperties.getBytesPerRow
    have hdiv : (w + p.blockWidth - 1) / p.blockWidth ≤
        (v + p.blockWidth - 1) / p.blockWidth :=
      Nat.div_le_div_right (by omega)
    exact Nat.mul_le_mul (max_le_max hdiv le_rfl) le_rfl
  · intro h4 h1 hmin
    unfold TextureFormatProperties.getBytesPerRow
    rw [h4, h1]
    have hdw : (w + 1 - 1) / 1 = w := by omega
    rw [hdw, Nat.max_eq_left hmin, Nat.mul_comm]

theorem getBytesPerRow_monotone_and_linear_witness :
    (2 ≤ 5 ∧ rgba8Props.getBytesPerRow 2 ≤ rgba8Props.getBytesPerRow 5) ∧
    rgba8Props.getBytesPerRow 2 = 4 * 2 :=
  ⟨⟨by decide, (getBytesPerRow_monotone_and_linear rgba8Props 2 5 (by decide)).1⟩,
   (getBytesPerRow_monotone_and_linear rgba8Props 2 5 (by decide)).2 (by decide)
     (by decide) (by decide)⟩

/-! ## Claim C8 (corrected) -/

/-- C8 counterexample: backend without separate read/draw targets, the
framebuffer bound at guard construction (id 5) is reported incomplete by the
backend, so the guard captures 0 instead of reading the binding; inside the
scope the binding changes to 7; at destruction the guard re-binds 0, not the
binding 5 that was current at construction — the binding change is visible
to the caller. -/
theorem guard_restore_not_transparent :
    ctxBound5.glState.drawFramebufferBinding = 5 ∧
    (guardRestore envIncomplete (guardCapture envIncomplete ctxBound5).1
        { glState :=
          { renderbufferBinding := 3, readFramebufferBinding := 7,
            drawFramebufferBinding := 7 } }).glState.drawFramebufferBinding = 0 := by
  exact ⟨rfl, by decide⟩

/-- C8 amended: the renderbuffer binding read at guard construction is
re-bound at destruction unconditionally; the framebuffer binding(s) read at
construction (read/draw separately when the backend supports them, the
combined binding otherwise) are re-bound at destruction provided the
backend reported the framebuffer bound at construction complete (otherwise
the guard deliberately restores binding 0 for that target). Destruction-time
state `ctxD` is arbitrary, covering every exit path and every binding change
made inside the scope. -/
theorem guard_restores_captured_bindings (env : Env) (ctx ctxD : GLCtx)
    (hread : env.features.readWriteFramebuffer = true →
      env.statusCode ctx.glState.readFramebufferBinding = GL_FRAMEBUFFER_COMPLETE)
    (hdraw : env.statusCode ctx.glState.drawFramebufferBinding = GL_FRAMEBUFFER_COMPLETE) :
    ((guardRestore env (guardCapture env ctx).1 ctxD).glState.renderbufferBinding
        = ctx.glState.renderbufferBinding) ∧
    ((guardRestore env (guardCapture env ctx).1 ctxD).glState.drawFramebufferBinding
        = ctx.glState.drawFramebufferBinding) ∧
    (env.features.readWriteFramebuffer = true →
      (guardRestore env (guardCapture env ctx).1 ctxD).glState.readFramebufferBinding
        = ctx.glState.readFramebufferBinding) := by
  unfold guardCapture guardRestore
  by_cases hrw : env.features.readWriteFramebuffer = true
  · simp only [hrw, if_true, hread hrw, hdraw, if_pos]
    refine ⟨?_, ?_, fun _ => ?_⟩ <;> rfl
  · simp only [hrw, if_false, Bool.false_eq_true, hdraw, if_pos]
    refine ⟨?_, ?_, fun hc => hc.elim⟩ <;> rfl

theorem guard_restores_captured_bindings_witness :
    (guardRestore envRWOk (guardCapture envRWOk ctxBound5).1
        { glState :=
          { renderbufferBinding := 9, readFramebufferBinding := 8,
            drawFramebufferBinding := 7 } }).glState.renderbufferBinding = 3 ∧
    (guardRestore envRWOk (guardCapture envRWOk ctxBound5).1
        { glState :=
          { renderbufferBinding := 9, readFramebufferBinding := 8,
            drawFramebufferBinding := 7 } }).glState.drawFramebufferBinding = 5 ∧
    (guardRestore envRWOk (guardCapture envRWOk ctxBound5).1
        { glState :=
          { renderbufferBinding := 9, readFramebufferBinding := 8,
            drawFramebufferBinding := 7 } }).glState.readFramebufferBinding = 5 := by
  have hmain := guard_restores_captured_bindings envRWOk ctxBound5
    { glState :=
      { renderbufferBinding := 9, readFramebufferBinding := 8,
        drawFramebufferBinding := 7 } }
    (fun _ => rfl) rfl
  exact ⟨hmain.1, hmain.2.1, hmain.2.2 rfl⟩

/-! ## Lemmas about prepareAttach and the resolve description -/

theorem prepareColorStep_fold_glState (p : AttachmentParams)
    (l : List (Nat × AttachmentDesc)) (dbs : List Nat) (ctx : GLCtx) :
    ((l.foldl (prepareColorStep p) (dbs, ctx)).2).glState = ctx.glState := by
  induction l generalizing dbs ctx with
  | nil => rfl
  | cons ca cas ih =>
    show ((cas.foldl (prepareColorStep p) (prepareColorStep p (dbs, ctx) ca)).2).glState = _
    cases hc : ca.2.texture with
    | none => rw [show prepareColorStep p (dbs, ctx) ca = (dbs, ctx) by
        simp [prepareColorStep, hc]]; exact ih dbs ctx
    | some tex =>
      rw [show prepareColorStep p (dbs, ctx) ca =
          (dbs ++ [GL_COLOR_ATTACHMENT0 + ca.1],
           ctx.emit (GLCall.attachColor ca.1 tex.id p)) by
        simp [prepareColorStep, hc]]
      rw [ih]
      rfl

theorem prepareColorStep_fold_nextId (p : AttachmentParams)
    (l : List (Nat × AttachmentDesc)) (dbs : List Nat) (ctx : GLCtx) :
    ((l.foldl (prepareColorStep p) (dbs, ctx)).2).nextId = ctx.nextId := by
  induction l generalizing dbs ctx with
  | nil => rfl
  | cons ca cas ih =>
    show ((cas.foldl (prepareColorStep p) (prepareColorStep p (dbs, ctx) ca)).2).nextId = _
    cases hc : ca.2.texture with
    | none => rw [show prepareColorStep p (dbs, ctx) ca = (dbs, ctx) by
        simp [prepareColorStep, hc]]; exact ih dbs ctx
    | some tex =>
      rw [show prepareColorStep p (dbs, ctx) ca =
          (dbs ++ [GL_COLOR_ATTACHMENT0 + ca.1],
           ctx.emit (GLCall.attachColor ca.1 tex.id p)) by
        simp [prepareColorStep, hc]]
      rw [ih]
      rfl

theorem prepareAttach_glState (st : CFB) (ctx : GLCtx) :
    (prepareAttach st ctx).glState =
      { ctx.glState with
        readFramebufferBinding := st.frameBufferID,
        drawFramebufferBinding := st.frameBufferID } := by
  unfold prepareAttach
  dsimp only
  split <;> split <;> split <;>
    simp [prepareColorStep_fold_glState, bindBuffer, applyCall, GLCtx.emit_glState]

theorem prepareAttach_nextId (st : CFB) (ctx : GLCtx) :
    (prepareAttach st ctx).nextId = ctx.nextId + 1 := by
  unfold prepareAttach
  dsimp only
  split <;> split <;> split <;>
    simp [prepareColorStep_fold_nextId, bindBuffer]

theorem resolveColorAttachments_cons_none (ca : Nat × AttachmentDesc)
    (cas : List (Nat × AttachmentDesc)) (h : ca.2.resolveTexture = none) :
    resolveColorAttachments (ca :: cas) = resolveColorAttachments cas := by
  simp [resolveColorAttachments, h]

theorem resolveColorAttachments_cons_some (ca : Nat × AttachmentDesc)
    (cas : List (Nat × AttachmentDesc)) (rt : Texture)
    (h : ca.2.resolveTexture = some rt) :
    resolveColorAttachments (ca :: cas) =
      (ca.1, ({ texture := some rt } : AttachmentDesc)) :: resolveColorAttachments cas := by
  simp [resolveColorAttachments, h]

theorem resolveColorAttachments_length_le (l : List (Nat × AttachmentDesc)) :
    (resolveColorAttachments l).length ≤ l.length :=
  List.length_filterMap_le _ _

theorem resolveColorAttachments_length_lt (l : List (Nat × AttachmentDesc))
    (h : ∃ ca ∈ l, ca.2.resolveTexture = none) :
    (resolveColorAttachments l).length < l.length := by
  induction l with
  | nil => simp at h
  | cons ca cas ih =>
    cases hh : ca.2.resolveTexture with
    | none =>
      rw [resolveColorAttachments_cons_none ca cas hh]
      exact Nat.lt_succ_of_le (resolveColorAttachments_length_le cas)
    | some rt =>
      rcases h with ⟨cb, hmem, hnone⟩
      rcases List.mem_cons.mp hmem with rfl | hmem2
      · rw [hh] at hnone; exact absurd hnone (by simp)
      · rw [resolveColorAttachments_cons_some ca cas rt hh]
        exact Nat.succ_lt_succ (ih ⟨cb, hmem2, hnone⟩)

theorem resolveColorAttachments_not_empty (l : List (Nat × AttachmentDesc))
    (h : ∃ ca ∈ l, ca.2.resolveTexture.isSome) :
    (resolveColorAttachments l).isEmpty = false := by
  rcases h with ⟨ca, hmem, hsome⟩
  rcases Option.isSome_iff_exists.mp hsome with ⟨rt, hrt⟩
  have hm : (ca.1, ({ texture := some rt } : AttachmentDesc)) ∈ resolveColorAttachments l := by
    unfold resolveColorAttachments
    exact List.mem_filterMap.mpr ⟨ca, hmem, by simp [hrt]⟩
  cases hres : resolveColorAttachments l with
  | nil => rw [hres] at hm; simp at hm
  | cons hd tl => rfl

theorem prepareStatus_ok (env : Env) (st : CFB) (ctx : GLCtx)
    (hok : env.statusCode ctx.nextId = GL_FRAMEBUFFER_COMPLETE) :
    (checkFramebufferStatusM env
        (prepareAttach (st.setFrameBufferID ctx.nextId) ctx).glState false).1 =
      Result.ok := by
  unfold checkFramebufferStatusM
  rw [prepareAttach_glState]
  simp [hok]

theorem prepareResourceWith_mismatch
    (childInit : FramebufferDesc → GLCtx → CFB × Result × GLCtx)
    (env : Env) (st : CFB) (ctx : GLCtx)
    (hok : env.statusCode ctx.nextId = GL_FRAMEBUFFER_COMPLETE)
    (hsome : ∃ ca ∈ st.renderTarget.colorAttachments, ca.2.resolveTexture.isSome)
    (hnone : ∃ ca ∈ st.renderTarget.colorAttachments, ca.2.resolveTexture = none) :
    (prepareResourceWith childInit env st ctx).2.1 =
      { code := ResultCode.ArgumentInvalid,
        message := "If resolve texture is specified on a color attachment it must be specified on all of them" } := by
  unfold prepareResourceWith
  dsimp only
  rw [prepareStatus_ok env st ctx hok]
  rw [if_neg (by simp [Result.isOk, Result.ok])]
  rw [if_pos]
  constructor
  · simp [resolveColorAttachments_not_empty _ hsome]
  · simp only [CFB.setFrameBufferID_renderTarget]
    exact Nat.ne_of_lt (resolveColorAttachments_length_lt _ hnone)

theorem cfbInit_succ (n : Nat) (env : Env) (st : CFB) (desc : FramebufferDesc)
    (ctx : GLCtx) :
    cfbInit (n + 1) env st desc ctx =
      cfbInitWith
        (prepareResourceWith (fun d c => cfbInit n env CFB.fresh d c) env)
        env st desc ctx := rfl

@[simp]
theorem hasImplicit_set (st : CFB) (desc : FramebufferDesc) :
    ((st.setInited true).setRenderTarget desc).hasImplicitColorAttachment =
      fbHasImplicitColor st.frameBufferID desc := by
  unfold CFB.hasImplicitColorAttachment
  simp

/-- On a fresh controller with a non-implicit render target, `cfbInitWith`
returns the outcome of `prepare` on the state carrying the new render target,
run in some context with the same bindings and fresh-id counter as the
caller's. -/
theorem cfbInitWith_prepare_result
    (prepare : CFB → GLCtx → CFB × Result × GLCtx)
    (env : Env) (st : CFB) (desc : FramebufferDesc) (ctx : GLCtx)
    (hfresh : st.inited = false)
    (himpl : fbHasImplicitColor st.frameBufferID desc = false) :
    ∃ ctx1 : GLCtx, ctx1.nextId = ctx.nextId ∧ ctx1.glState = ctx.glState ∧
      (cfbInitWith prepare env st desc ctx).2.1 =
        (prepare ((st.setInited true).setRenderTarget desc) ctx1).2.1 ∧
      (cfbInitWith prepare env st desc ctx).1 =
        (prepare ((st.setInited true).setRenderTarget desc) ctx1).1 := by
  unfold cfbInitWith
  rw [if_neg (by simp [hfresh])]
  dsimp only
  rw [if_neg (by simp [himpl])]
  refine ⟨_, ?_, ?_, rfl, rfl⟩
  · split <;> simp
  · split <;> simp [guardCapture_glState, applyCall]

/-! ## Claim C2 -/

/-- C2: for an attachment set in which at least one color attachment declares
a resolve texture and at least one declares none, `initialize` on a fresh,
non-implicit controller with a backend reporting the framebuffer complete
fails with an `ArgumentInvalid` error. -/
theorem cfbInit_mismatched_resolve_invalid (n : Nat) (env : Env) (st : CFB)
    (desc : FramebufferDesc) (ctx : GLCtx)
    (hfresh : st.inited = false)
    (himpl : fbHasImplicitColor st.frameBufferID desc = false)
    (hok : env.statusCode ctx.nextId = GL_FRAMEBUFFER_COMPLETE)
    (hsome : ∃ ca ∈ desc.colorAttachments, ca.2.resolveTexture.isSome)
    (hnone : ∃ ca ∈ desc.colorAttachments, ca.2.resolveTexture = none) :
    (cfbInit (n + 1) env st desc ctx).2.1 =
      { code := ResultCode.ArgumentInvalid,
        message := "If resolve texture is specified on a color attachment it must be specified on all of them" } := by
  rw [cfbInit_succ]
  obtain ⟨ctx1, hnext, _, hres, _⟩ :=
    cfbInitWith_prepare_result
      (prepareResourceWith (fun d c => cfbInit n env CFB.fresh d c) env)
      env st desc ctx hfresh himpl
  rw [hres]
  exact prepareResourceWith_mismatch _ env _ ctx1 (by rw [hnext]; exact hok)
    (by simpa using hsome) (by simpa using hnone)

/-- Two color attachments; only index 0 carries a resolve texture. -/
def descMismatch : FramebufferDesc :=
  { colorAttachments :=
    [(0, { texture := some texA, resolveTexture := some texR }),
     (1, { texture := some texB })] }

theorem cfbInit_mismatched_resolve_invalid_witness :
    (CFB.fresh.inited = false ∧
     fbHasImplicitColor CFB.fresh.frameBufferID descMismatch = false ∧
     (∃ ca ∈ descMismatch.colorAttachments, ca.2.resolveTexture.isSome) ∧
     (∃ ca ∈ descMismatch.colorAttachments, ca.2.resolveTexture = none)) ∧
    (cfbInit 2 {} CFB.fresh descMismatch GLCtx.init).2.1.code =
      ResultCode.ArgumentInvalid := by
  refine ⟨⟨rfl, by decide, by decide, by decide⟩, ?_⟩
  rw [cfbInit_mismatched_resolve_invalid 1 {} CFB.fresh descMismatch GLCtx.init rfl
    (by decide) rfl (by decide) (by decide)]

theorem prepareResourceWith_no_resolve
    (childInit : FramebufferDesc → GLCtx → CFB × Result × GLCtx)
    (env : Env) (st : CFB) (ctx : GLCtx)
    (hok : env.statusCode ctx.nextId = GL_FRAMEBUFFER_COMPLETE)
    (hempty : (resolveColorAttachments st.renderTarget.colorAttachments).isEmpty = true)
    (hnores : (resolveFBDesc st.renderTarget).1 = false) :
    (prepareResourceWith childInit env st ctx).2.1 = Result.ok ∧
    (prepareResourceWith childInit env st ctx).1 = st.setFrameBufferID ctx.nextId := by
  unfold prepareResourceWith
  dsimp only
  rw [prepareStatus_ok env st ctx hok]
  have hio : (¬ Result.ok.isOk = true) = False := by simp [Result.isOk, Result.ok]
  simp only [hio, if_false, CFB.setFrameBufferID_renderTarget]
  rw [if_neg (by simp [hempty])]
  rw [if_neg (by simp [hnores])]
  exact ⟨rfl, rfl⟩

theorem prepareResourceWith_resolve
    (childInit : FramebufferDesc → GLCtx → CFB × Result × GLCtx)
    (env : Env) (st : CFB) (ctx : GLCtx)
    (hok : env.statusCode ctx.nextId = GL_FRAMEBUFFER_COMPLETE)
    (hlen : (resolveColorAttachments st.renderTarget.colorAttachments).length =
      st.renderTarget.colorAttachments.length)
    (hcreate : (resolveFBDesc st.renderTarget).1 = true) :
    ∃ ctx2 : GLCtx, ctx2.nextId = ctx.nextId + 1 ∧
      (prepareResourceWith childInit env st ctx).2.1 =
        (childInit (resolveFBDesc st.renderTarget).2 ctx2).2.1 ∧
      (prepareResourceWith childInit env st ctx).1 =
        (st.setFrameBufferID ctx.nextId).setResolveFramebuffer
          (some (childInit (resolveFBDesc st.renderTarget).2 ctx2).1) := by
  unfold prepareResourceWith
  dsimp only
  rw [prepareStatus_ok env st ctx hok]
  have hio : (¬ Result.ok.isOk = true) = False := by simp [Result.isOk, Result.ok]
  simp only [hio, if_false, CFB.setFrameBufferID_renderTarget]
  rw [if_neg (by simp [hlen])]
  rw [if_pos (by simp [hcreate])]
  exact ⟨_, by simp [prepareAttach_nextId], rfl, rfl⟩

/-! ## Claim C3 -/

/-- C3: for an attachment set whose only color attachment sits at index 0 and
carries a resolve texture, with a depth attachment carrying no resolve
texture, `initialize` on a fresh controller (backend reporting both
framebuffers complete, textures not implicit-storage) succeeds and lazily
constructs the child resolve framebuffer whose single color attachment at
index 0 is exactly the resolve texture (and which has no depth or stencil
attachment). -/
theorem cfbInit_single_resolve_child (n : Nat) (env : Env) (t r d : Texture)
    (ctx : GLCtx)
    (himplT : t.isImplicitStorage = false)
    (himplR : r.isImplicitStorage = false)
    (hok1 : env.statusCode ctx.nextId = GL_FRAMEBUFFER_COMPLETE)
    (hok2 : env.statusCode (ctx.nextId + 1) = GL_FRAMEBUFFER_COMPLETE) :
    (cfbInit (n + 1 + 1) env CFB.fresh
        { colorAttachments := [(0, { texture := some t, resolveTexture := some r })],
          depthAttachment := { texture := some d } } ctx).2.1 = Result.ok ∧
    ∃ child : CFB,
      (cfbInit (n + 1 + 1) env CFB.fresh
          { colorAttachments := [(0, { texture := some t, resolveTexture := some r })],
            depthAttachment := { texture := some d } } ctx).1.resolveFramebuffer =
        some child ∧
      child.renderTarget.colorAttachments = [(0, { texture := some r })] ∧
      child.renderTarget.depthAttachment = {} ∧
      child.renderTarget.stencilAttachment = {} ∧
      child.inited = true := by
  set desc : FramebufferDesc :=
    { colorAttachments := [(0, { texture := some t, resolveTexture := some r })],
      depthAttachment := { texture := some d } } with hdesc
  set rdesc : FramebufferDesc :=
    { colorAttachments := [(0, { texture := some r })] } with hrdesc
  have himplDesc : fbHasImplicitColor CFB.fresh.frameBufferID desc = false := by
    simp [fbHasImplicitColor, findAttachment, hdesc, himplT, CFB.fresh]
  have himplRDesc : fbHasImplicitColor CFB.fresh.frameBufferID rdesc = false := by
    simp [fbHasImplicitColor, findAttachment, hrdesc, himplR, CFB.fresh]
  rw [cfbInit_succ (n + 1) env CFB.fresh desc ctx]
  obtain ⟨ctx1, hnext1, _, hres1, hst1⟩ :=
    cfbInitWith_prepare_result
      (prepareResourceWith (fun d2 c => cfbInit (n + 1) env CFB.fresh d2 c) env)
      env CFB.fresh desc ctx rfl himplDesc
  have hrt1 : ((CFB.fresh.setInited true).setRenderTarget desc).renderTarget = desc := by
    simp
  have hrfb : resolveFBDesc desc = (true, rdesc) := by rw [hdesc, hrdesc]; rfl
  obtain ⟨ctx2, hnext2, hres2, hst2⟩ :=
    prepareResourceWith_resolve
      (fun d2 c => cfbInit (n + 1) env CFB.fresh d2 c) env
      ((CFB.fresh.setInited true).setRenderTarget desc) ctx1
      (by rw [hnext1]; exact hok1)
      (by rw [hrt1, hdesc]; rfl)
      (by rw [hrt1, hrfb])
  rw [hrt1, hrfb] at hres2 hst2
  dsimp only at hres2 hst2
  rw [cfbInit_succ n env CFB.fresh rdesc ctx2] at hres2 hst2
  obtain ⟨ctx3, hnext3, _, hres3, hst3⟩ :=
    cfbInitWith_prepare_result
      (prepareResourceWith (fun d2 c => cfbInit n env CFB.fresh d2 c) env)
      env CFB.fresh rdesc ctx2 rfl himplRDesc
  have hrt3 : ((CFB.fresh.setInited true).setRenderTarget rdesc).renderTarget = rdesc := by
    simp
  obtain ⟨hcres, hcst⟩ :=
    prepareResourceWith_no_resolve
      (fun d2 c => cfbInit n env CFB.fresh d2 c) env
      ((CFB.fresh.setInited true).setRenderTarget rdesc) ctx3
      (by rw [hnext3, hnext2, hnext1]; exact hok2)
      (by rw [hrt3, hrdesc]; rfl)
      (by rw [hrt3, hrdesc]; rfl)
  constructor
  · rw [hres1, hres2, hres3, hcres]
  · refine ⟨((CFB.fresh.setInited true).setRenderTarget rdesc).setFrameBufferID ctx3.nextId,
      ?_, ?_, ?_, ?_, ?_⟩
    · rw [hst1, hst2, hst3, hcst]
      simp
    · simp [hrdesc]
    · simp [hrdesc]
    · simp [hrdesc]
    · simp

theorem cfbInit_single_resolve_child_witness :
    (texA.isImplicitStorage = false ∧ texR.isImplicitStorage = false) ∧
    (cfbInit 2 {} CFB.fresh
        { colorAttachments := [(0, { texture := some texA, resolveTexture := some texR })],
          depthAttachment := { texture := some texD } } GLCtx.init).2.1 = Result.ok ∧
    ∃ child : CFB,
      (cfbInit 2 {} CFB.fresh
          { colorAttachments := [(0, { texture := some texA, resolveTexture := some texR })],
            depthAttachment := { texture := some texD } } GLCtx.init).1.resolveFramebuffer =
        some child ∧
      child.renderTarget.colorAttachments = [(0, { texture := some texR })] ∧
      child.inited = true := by
  have hmain := cfbInit_single_resolve_child 0 {} texA texR texD GLCtx.init rfl rfl rfl rfl
  refine ⟨⟨rfl, rfl⟩, hmain.1, ?_⟩
  obtain ⟨child, h1, h2, _, _, h5⟩ := hmain.2
  exact ⟨child, h1, h2, h5⟩

theorem count_singleton_ite (c : Prop) [Decidable c] (a b : Nat) :
    List.count a (if c then [b] else []) = if c ∧ b = a then 1 else 0 := by
  by_cases hc : c <;>
    simp [hc, List.count_cons, List.count_nil, beq_iff_eq]

/-! ## Claim C4 -/

/-- C4: the `attachments` array passed to `glInvalidateFramebuffer` by
`unbind()` contains exactly one entry per existing attachment (color 0,
depth, stencil) whose cached render-pass store action is not `Store`, and no
entry for an attachment whose store action is `Store`; the invalidate call
carries exactly this array and is issued only when it is non-empty and the
backend has the invalidate capability — with the capability absent no
invalidate call is issued at all. -/
theorem unbind_invalidate_correct (env : Env) (st : CFB) :
    ((unbindAttachments st.renderTarget st.renderPass).count GL_COLOR_ATTACHMENT0 =
      if ((match findAttachment st.renderTarget.colorAttachments 0 with
           | some ad => ad.texture.isSome
           | none => false)
          && ((st.renderPass.colorAttachments.getD 0 default).storeAction
            != StoreAction.Store)) = true
      then 1 else 0) ∧
    ((unbindAttachments st.renderTarget st.renderPass).count GL_DEPTH_ATTACHMENT =
      if (st.renderTarget.depthAttachment.texture.isSome
          && (st.renderPass.depthAttachment.storeAction != StoreAction.Store)) = true
      then 1 else 0) ∧
    ((unbindAttachments st.renderTarget st.renderPass).count GL_STENCIL_ATTACHMENT =
      if (st.renderTarget.stencilAttachment.texture.isSome
          && (st.renderPass.stencilAttachment.storeAction != StoreAction.Store)) = true
      then 1 else 0) ∧
    (env.features.invalidateFramebuffer = false →
      ∀ target l, GLCall.invalidate target l ∉ (unbindFB env st GLCtx.init).trace) ∧
    (env.features.invalidateFramebuffer = true →
      0 < (unbindAttachments st.renderTarget st.renderPass).length →
      GLCall.invalidate GL_FRAMEBUFFER (unbindAttachments st.renderTarget st.renderPass) ∈
        (unbindFB env st GLCtx.init).trace) := by
  refine ⟨?_, ?_, ?_, ?_, ?_⟩
  · simp only [unbindAttachments, List.count_append, count_singleton_ite]
    simp [GL_COLOR_ATTACHMENT0, GL_DEPTH_ATTACHMENT, GL_STENCIL_ATTACHMENT]
  · simp only [unbindAttachments, List.count_append, count_singleton_ite]
    simp [GL_COLOR_ATTACHMENT0, GL_DEPTH_ATTACHMENT, GL_STENCIL_ATTACHMENT]
  · simp only [unbindAttachments, List.count_append, count_singleton_ite]
    simp [GL_COLOR_ATTACHMENT0, GL_DEPTH_ATTACHMENT, GL_STENCIL_ATTACHMENT]
  · intro hf target l
    unfold unbindFB
    dsimp only
    rw [if_neg (by simp [hf])]
    split <;> simp [GLCtx.init]
  · intro hf hlen
    unfold unbindFB
    dsimp only
    rw [if_pos ⟨hlen, hf⟩]
    split <;> simp [GLCtx.init]

/-- An environment whose backend has the invalidate capability. -/
def envInv : Env := { features := { invalidateFramebuffer := true } }

/-- A bound framebuffer: color 0 with store action `DontCare`, depth with
store action `Store`, no stencil. -/
def stC4 : CFB :=
  CFB.mk 7
    { colorAttachments := [(0, { texture := some texA })],
      depthAttachment := { texture := some texD } }
    true none
    { colorAttachments := [{ storeAction := StoreAction.DontCare }],
      depthAttachment := { storeAction := StoreAction.Store } }

theorem unbind_invalidate_correct_witness :
    (unbindAttachments stC4.renderTarget stC4.renderPass).count GL_COLOR_ATTACHMENT0 = 1 ∧
    (unbindAttachments stC4.renderTarget stC4.renderPass).count GL_DEPTH_ATTACHMENT = 0 ∧
    GLCall.invalidate GL_FRAMEBUFFER (unbindAttachments stC4.renderTarget stC4.renderPass) ∈
      (unbindFB envInv stC4 GLCtx.init).trace := by
  have hmain := unbind_invalidate_correct envInv stC4
  refine ⟨?_, ?_, ?_⟩
  · rw [hmain.1]
    decide
  · rw [hmain.2.1]
    decide
  · exact hmain.2.2.2.2 rfl (by decide)



/-! ## Trace decomposition of bind -/

theorem trace_ite (c : Prop) [Decidable c] (ctx : GLCtx) (a : GLCall) :
    (if c then ctx.emit a else ctx).trace = ctx.trace ++ (if c then [a] else []) := by
  split <;> simp

theorem trace_ite2 (c : Prop) [Decidable c] (ctx : GLCtx) (a b : GLCall) :
    (if c then (ctx.emit a).emit b else ctx).trace =
      ctx.trace ++ (if c then [a, b] else []) := by
  split <;> simp

theorem foldl_emits_trace {α : Type} (f : α → List GLCall) (l : List α) (ctx : GLCtx) :
    (l.foldl (fun c a => c.emits (f a)) ctx).trace = ctx.trace ++ l.flatMap f := by
  induction l generalizing ctx with
  | nil => simp
  | cons a as ih =>
    show (as.foldl (fun c a => c.emits (f a)) (ctx.emits (f a))).trace = _
    rw [ih]
    simp

/-- The full trace of `bind` on an empty starting context, segment by
segment. -/
theorem bindFB_trace (env : Env) (st : CFB) (renderPass : RenderPassDesc) :
    (bindFB env st renderPass GLCtx.init).2.trace =
      (if st.renderTarget.mode = FramebufferMode.Multiview then
        [GLCall.assertionFailed "FramebufferMode::Multiview not supported"] else [])
      ++ [GLCall.bindFramebuffer GL_FRAMEBUFFER st.frameBufferID]
      ++ st.renderTarget.colorAttachments.flatMap
          (colorBindCalls env st.renderTarget.mode renderPass)
      ++ depthBindCalls st.renderTarget.mode renderPass
          st.renderTarget.depthAttachment.texture
      ++ (if shouldClearColor st.renderTarget renderPass then
            [GLCall.colorMask true true true true,
             GLCall.clearColorCall (renderPass.colorAttachments.getD 0 default).clearColor]
          else [])
      ++ (if shouldClearDepth st.renderTarget renderPass then
            [GLCall.depthMask true, GLCall.clearDepthf renderPass.depthAttachment.clearDepth]
          else [])
      ++ (if st.renderTarget.stencilAttachment.texture.isSome = true then
            [GLCall.enableCap GL_STENCIL_TEST] else [])
      ++ (if shouldClearStencil st.renderTarget renderPass then
            [GLCall.stencilMask 0xFF,
             GLCall.clearStencil renderPass.stencilAttachment.clearStencil]
          else [])
      ++ (if bindClearMask st.renderTarget renderPass ≠ 0 then
            [GLCall.clearCall (bindClearMask st.renderTarget renderPass)] else []) := by
  unfold bindFB
  dsimp only
  simp only [CFB.setRenderPass_renderTarget, CFB.setRenderPass_frameBufferID, bindBuffer,
    trace_ite, trace_ite2, GLCtx.emit_trace, GLCtx.emits_trace, foldl_emits_trace]
  simp [GLCtx.init, List.append_assoc]

@[simp]
theorem mem_ite_nil (x : GLCall) (c : Prop) [Decidable c] (l : List GLCall) :
    (x ∈ if c then l else []) ↔ c ∧ x ∈ l := by
  split <;> simp_all

theorem clearCall_notin_colorBindCalls (env : Env) (mode : FramebufferMode)
    (renderPass : RenderPassDesc) (ca : Nat × AttachmentDesc) (m : Nat) :
    GLCall.clearCall m ∉ colorBindCalls env mode renderPass ca := by
  unfold colorBindCalls
  split
  · simp
  · dsimp only
    repeat' split
    all_goals simp

theorem shouldClearColor_iff (rt : FramebufferDesc) (renderPass : RenderPassDesc) :
    shouldClearColor rt renderPass = true ↔
      (∃ ad, findAttachment rt.colorAttachments 0 = some ad ∧ ad.texture.isSome = true) ∧
        (renderPass.colorAttachments.getD 0 default).loadAction = LoadAction.Clear := by
  unfold shouldClearColor
  cases h : findAttachment rt.colorAttachments 0 <;> simp [h]

theorem shouldClearDepth_iff (rt : FramebufferDesc) (renderPass : RenderPassDesc) :
    shouldClearDepth rt renderPass = true ↔
      rt.depthAttachment.texture.isSome = true ∧
        renderPass.depthAttachment.loadAction = LoadAction.Clear := by
  unfold shouldClearDepth
  simp

theorem shouldClearStencil_iff (rt : FramebufferDesc) (renderPass : RenderPassDesc) :
    shouldClearStencil rt renderPass = true ↔
      rt.stencilAttachment.texture.isSome = true ∧
        renderPass.stencilAttachment.loadAction = LoadAction.Clear := by
  unfold shouldClearStencil
  simp

/-! ## Claim C6 -/

/-- C6: during `bind(renderPass)`, each of the color, depth and stencil
buffers is cleared (its bit is in the `clearMask` passed to `glClear`) if
and only if the corresponding attachment exists (entry present with a
non-null texture) and its render-pass load action is `Clear`; the three
decisions are independent (each equivalence holds for every combination of
the other two); and the `glClear` call is issued exactly when the mask is
non-empty. -/
theorem bind_clear_iff (env : Env) (st : CFB) (renderPass : RenderPassDesc) :
    ((bindClearMask st.renderTarget renderPass &&& GL_COLOR_BUFFER_BIT ≠ 0) ↔
      (∃ ad, findAttachment st.renderTarget.colorAttachments 0 = some ad ∧
          ad.texture.isSome = true) ∧
        (renderPass.colorAttachments.getD 0 default).loadAction = LoadAction.Clear) ∧
    ((bindClearMask st.renderTarget renderPass &&& GL_DEPTH_BUFFER_BIT ≠ 0) ↔
      st.renderTarget.depthAttachment.texture.isSome = true ∧
        renderPass.depthAttachment.loadAction = LoadAction.Clear) ∧
    ((bindClearMask st.renderTarget renderPass &&& GL_STENCIL_BUFFER_BIT ≠ 0) ↔
      st.renderTarget.stencilAttachment.texture.isSome = true ∧
        renderPass.stencilAttachment.loadAction = LoadAction.Clear) ∧
    (GLCall.clearCall (bindClearMask st.renderTarget renderPass) ∈
        (bindFB env st renderPass GLCtx.init).2.trace ↔
      bindClearMask st.renderTarget renderPass ≠ 0) := by
  refine ⟨?_, ?_, ?_, ?_⟩
  · rw [← shouldClearColor_iff]
    by_cases b1 : shouldClearColor st.renderTarget renderPass = true <;>
      by_cases b2 : shouldClearDepth st.renderTarget renderPass = true <;>
      by_cases b3 : shouldClearStencil st.renderTarget renderPass = true <;>
      (simp [bindClearMask, b1, b2, b3, GL_COLOR_BUFFER_BIT, GL_DEPTH_BUFFER_BIT,
        GL_STENCIL_BUFFER_BIT] <;> decide)
  · rw [← shouldClearDepth_iff]
    by_cases b1 : shouldClearColor st.renderTarget renderPass = true <;>
      by_cases b2 : shouldClearDepth st.renderTarget renderPass = true <;>
      by_cases b3 : shouldClearStencil st.renderTarget renderPass = true <;>
      (simp [bindClearMask, b1, b2, b3, GL_COLOR_BUFFER_BIT, GL_DEPTH_BUFFER_BIT,
        GL_STENCIL_BUFFER_BIT] <;> decide)
  · rw [← shouldClearStencil_iff]
    by_cases b1 : shouldClearColor st.renderTarget renderPass = true <;>
      by_cases b2 : shouldClearDepth st.renderTarget renderPass = true <;>
      by_cases b3 : shouldClearStencil st.renderTarget renderPass = true <;>
      (simp [bindClearMask, b1, b2, b3, GL_COLOR_BUFFER_BIT, GL_DEPTH_BUFFER_BIT,
        GL_STENCIL_BUFFER_BIT] <;> decide)
  · rw [bindFB_trace]
    by_cases hm : bindClearMask st.renderTarget renderPass ≠ 0
    · simp [hm]
    · rw [not_ne_iff] at hm
      cases hd : st.renderTarget.depthAttachment.texture with
      | none =>
        simp [hm, hd, List.mem_flatMap, clearCall_notin_colorBindCalls, depthBindCalls]
      | some tex =>
        simp [hm, hd, List.mem_flatMap, clearCall_notin_colorBindCalls, depthBindCalls]

/-- An initialized framebuffer with a color-0 and a depth attachment. -/
def stC6 : CFB :=
  CFB.mk 7
    { colorAttachments := [(0, { texture := some texA })],
      depthAttachment := { texture := some texD } }
    true none {}

/-- A render pass clearing color but loading depth. -/
def rpC6 : RenderPassDesc :=
  { colorAttachments := [{ loadAction := LoadAction.Clear }],
    depthAttachment := { loadAction := LoadAction.Load } }

theorem bind_clear_iff_witness :
    (bindClearMask stC6.renderTarget rpC6 &&& GL_COLOR_BUFFER_BIT ≠ 0) ∧
    (bindClearMask stC6.renderTarget rpC6 &&& GL_DEPTH_BUFFER_BIT = 0) ∧
    GLCall.clearCall (bindClearMask stC6.renderTarget rpC6) ∈
      (bindFB {} stC6 rpC6 GLCtx.init).2.trace := by
  have hmain := bind_clear_iff {} stC6 rpC6
  refine ⟨?_, ?_, ?_⟩
  · exact hmain.1.mpr ⟨⟨{ texture := some texA }, by decide, by decide⟩, by decide⟩
  · have hno : ¬(stC6.renderTarget.depthAttachment.texture.isSome = true ∧
        rpC6.depthAttachment.loadAction = LoadAction.Clear) := by decide
    exact not_ne_iff.mp (fun h => hno (hmain.2.1.mp h))
  · exact hmain.2.2.2.mpr (by decide)

theorem attachColor_notin_depthBindCalls (mode : FramebufferMode)
    (renderPass : RenderPassDesc) (o : Option Texture) (i tex : Nat)
    (p : AttachmentParams) :
    GLCall.attachColor i tex p ∉ depthBindCalls mode renderPass o := by
  unfold depthBindCalls
  cases o
  · simp
  · split <;> simp

theorem attachDepth_notin_colorBindCalls (env : Env) (mode : FramebufferMode)
    (renderPass : RenderPassDesc) (ca : Nat × AttachmentDesc) (tex : Nat)
    (p : AttachmentParams) :
    GLCall.attachDepth tex p ∉ colorBindCalls env mode renderPass ca := by
  unfold colorBindCalls
  split
  · simp
  · dsimp only
    repeat' split
    all_goals simp

theorem attachColor_mem_colorBindCalls (env : Env) (mode : FramebufferMode)
    (renderPass : RenderPassDesc) (ca : Nat × AttachmentDesc) (i tex : Nat) :
    (GLCall.attachColor i tex
        (toAttachmentParams
          (renderPass.colorAttachments.getD i default).toBaseAttachmentDesc mode) ∈
      colorBindCalls env mode renderPass ca) ↔
      (ca.1 = i ∧ (∃ t0, ca.2.texture = some t0 ∧ t0.id = tex) ∧
        needsToBeReattached mode
          (renderPass.colorAttachments.getD i default).toBaseAttachmentDesc = true) := by
  unfold colorBindCalls
  cases h : ca.2.texture with
  | none => simp [h]
  | some t0 =>
    dsimp only
    by_cases hi : ca.1 = i
    · subst hi
      repeat' split
      all_goals simp_all
      all_goals exact eq_comm
    · repeat' split
      all_goals simp_all [AttachmentParams.mk.injEq, toAttachmentParams]
      all_goals intro h2
      all_goals exact absurd h2.symm hi

/-! ## Claim C5 -/

/-- C5: during `bind(renderPass)`, a color attachment texture at index `i`
is re-attached (an `attachAsColor` call with the render-pass face/mip/layer
appears in the trace) if and only if the framebuffer mode is `Stereo` or the
render pass requests a nonzero layer, face or mip level for index `i`; the
depth attachment likewise against the render-pass depth attachment. When
none of those hold the attachment made at `initialize` time is left
untouched (no re-attach call is issued for it). -/
theorem attachDepth_mem_depthBindCalls (mode : FramebufferMode)
    (renderPass : RenderPassDesc) (o : Option Texture) (tex : Nat) :
    (GLCall.attachDepth tex
        (toAttachmentParams renderPass.depthAttachment.toBaseAttachmentDesc mode) ∈
      depthBindCalls mode renderPass o) ↔
      ((∃ t0, o = some t0 ∧ t0.id = tex) ∧
        needsToBeReattached mode renderPass.depthAttachment.toBaseAttachmentDesc = true) := by
  cases o with
  | none => simp [depthBindCalls]
  | some t0 =>
    show GLCall.attachDepth tex
        (toAttachmentParams renderPass.depthAttachment.toBaseAttachmentDesc mode) ∈
        (if needsToBeReattached mode renderPass.depthAttachment.toBaseAttachmentDesc = true
         then [GLCall.attachDepth t0.id
            (toAttachmentParams renderPass.depthAttachment.toBaseAttachmentDesc mode)]
         else []) ↔ _
    by_cases hneed :
        needsToBeReattached mode renderPass.depthAttachment.toBaseAttachmentDesc = true
    · simp only [hneed, if_true, List.mem_singleton]
      constructor
      · intro hm
        injection hm with h1 h2
        exact ⟨⟨t0, rfl, h1.symm⟩, trivial⟩
      · rintro ⟨⟨t1, ht1, hid⟩, h2⟩
        obtain rfl : t1 = t0 := (Option.some.inj ht1).symm
        rw [← hid]
    · simp [hneed]

theorem bind_reattach_iff (env : Env) (st : CFB) (renderPass : RenderPassDesc) :
    (∀ i ad tex, (i, ad) ∈ st.renderTarget.colorAttachments → ad.texture = some tex →
      (GLCall.attachColor i tex.id
          (toAttachmentParams
            (renderPass.colorAttachments.getD i default).toBaseAttachmentDesc
            st.renderTarget.mode) ∈
          (bindFB env st renderPass GLCtx.init).2.trace ↔
        needsToBeReattached st.renderTarget.mode
          (renderPass.colorAttachments.getD i default).toBaseAttachmentDesc = true)) ∧
    (∀ tex, st.renderTarget.depthAttachment.texture = some tex →
      (GLCall.attachDepth tex.id
          (toAttachmentParams renderPass.depthAttachment.toBaseAttachmentDesc
            st.renderTarget.mode) ∈
          (bindFB env st renderPass GLCtx.init).2.trace ↔
        needsToBeReattached st.renderTarget.mode
          renderPass.depthAttachment.toBaseAttachmentDesc = true)) := by
  constructor
  · intro i ad tex hmem htex
    rw [bindFB_trace]
    constructor
    · intro hT
      simp only [List.mem_append] at hT
      rcases hT with ((((((((h | h) | h) | h) | h) | h) | h) | h) | h)
      · simp at h
      · simp at h
      · rw [List.mem_flatMap] at h
        obtain ⟨ca, hca, hmemc⟩ := h
        rw [attachColor_mem_colorBindCalls] at hmemc
        exact hmemc.2.2
      · exact absurd h
          (attachColor_notin_depthBindCalls st.renderTarget.mode renderPass _ i tex.id _)
      · simp at h
      · simp at h
      · simp at h
      · simp at h
      · simp at h
    · intro hneed
      apply List.mem_append_left
      apply List.mem_append_left
      apply List.mem_append_left
      apply List.mem_append_left
      apply List.mem_append_left
      apply List.mem_append_left
      apply List.mem_append_right
      exact List.mem_flatMap.mpr
        ⟨(i, ad), hmem,
         (attachColor_mem_colorBindCalls env st.renderTarget.mode renderPass (i, ad)
            i tex.id).mpr ⟨rfl, ⟨tex, htex, rfl⟩, hneed⟩⟩
  · intro tex htex
    rw [bindFB_trace]
    constructor
    · intro hT
      simp only [List.mem_append] at hT
      rcases hT with ((((((((h | h) | h) | h) | h) | h) | h) | h) | h)
      · simp at h
      · simp at h
      · rw [List.mem_flatMap] at h
        obtain ⟨ca, hca, hmemc⟩ := h
        exact absurd hmemc
          (attachDepth_notin_colorBindCalls env st.renderTarget.mode renderPass ca tex.id _)
      · rw [attachDepth_mem_depthBindCalls] at h
        exact h.2
      · simp at h
      · simp at h
      · simp at h
      · simp at h
      · simp at h
    · intro hneed
      apply List.mem_append_left
      apply List.mem_append_left
      apply List.mem_append_left
      apply List.mem_append_left
      apply List.mem_append_left
      apply List.mem_append_right
      exact (attachDepth_mem_depthBindCalls st.renderTarget.mode renderPass _ tex.id).mpr
        ⟨⟨tex, htex, rfl⟩, hneed⟩

/-- A render pass asking for mip level 1 on color 0 and the defaults
(layer 0, face 0, mip 0) for depth. -/
def rpC5 : RenderPassDesc :=
  { colorAttachments := [{ mipLevel := 1 }] }

theorem bind_reattach_iff_witness :
    (GLCall.attachColor 0 texA.id
        (toAttachmentParams (rpC5.colorAttachments.getD 0 default).toBaseAttachmentDesc
          stC6.renderTarget.mode) ∈ (bindFB {} stC6 rpC5 GLCtx.init).2.trace) ∧
    (GLCall.attachDepth texD.id
        (toAttachmentParams rpC5.depthAttachment.toBaseAttachmentDesc
          stC6.renderTarget.mode) ∉ (bindFB {} stC6 rpC5 GLCtx.init).2.trace) := by
  have hmain := bind_reattach_iff {} stC6 rpC5
  constructor
  · exact (hmain.1 0 { texture := some texA } texA (by decide) rfl).mpr (by decide)
  · intro hm
    exact absurd ((hmain.2 texD rfl).mp hm) (by decide)

/-! ## Claim C7 -/

/-- C7: `bind` on a multiview-mode framebuffer records the fatal
precondition-assertion failure (the function has no error-result channel at
all — `void` in the C++ — so no recoverable error is returned), and
`copyBytesColorAttachment` with a nonzero attachment index records the
invalid-index assertion failure and returns immediately: its only effect is
that assertion, and in particular no `readPixels` call is issued, so no
pixel data reaches the caller buffer. -/
theorem precondition_asserts (env : Env) (st st2 : CFB)
    (renderPass : RenderPassDesc) (range : TextureRangeDesc) (bytesPerRow : Nat)
    (ctx : GLCtx) (index : Nat)
    (hmv : st.renderTarget.mode = FramebufferMode.Multiview)
    (hidx : index ≠ 0) :
    GLCall.assertionFailed "FramebufferMode::Multiview not supported" ∈
      (bindFB env st renderPass GLCtx.init).2.trace ∧
    copyBytesColorAttachment env st2 index range bytesPerRow ctx =
      ctx.emit (GLCall.assertionFailed "Invalid index") ∧
    (∀ x y w h f t, GLCall.readPixels x y w h f t ∉
      (copyBytesColorAttachment env st2 index range bytesPerRow GLCtx.init).trace) := by
  refine ⟨?_, ?_, ?_⟩
  · rw [bindFB_trace]
    simp [hmv]
  · unfold copyBytesColorAttachment
    rw [if_pos hidx]
  · intro x y w h f t
    unfold copyBytesColorAttachment
    rw [if_pos hidx]
    simp [GLCtx.init]

/-- A multiview-mode framebuffer. -/
def stMV : CFB :=
  CFB.mk 7
    { colorAttachments := [(0, { texture := some texA })],
      mode := FramebufferMode.Multiview }
    true none {}

theorem precondition_asserts_witness :
    GLCall.assertionFailed "FramebufferMode::Multiview not supported" ∈
      (bindFB {} stMV {} GLCtx.init).2.trace ∧
    copyBytesColorAttachment {} stC6 1 {} 0 GLCtx.init =
      GLCtx.init.emit (GLCall.assertionFailed "Invalid index") ∧
    (∀ x y w h f t, GLCall.readPixels x y w h f t ∉
      (copyBytesColorAttachment {} stC6 1 {} 0 GLCtx.init).trace) := by
  have hmain := precondition_asserts {} stMV stC6 {} {} 0 GLCtx.init 1 rfl (by decide)
  exact hmain
